import Mathlib

/-!
# PWM control routines of the RDK-BLDC firmware (`pwm_ctrl.c`)

A shallow embedding of `StellarisWare/boards/rdk-bldc/basic-bldc/pwm_ctrl.c`.

* `unsigned long` is a 32-bit word: a `Nat` together with explicit reduction
  modulo `2 ^ 32` at every arithmetic operation (`add32`, `sub32`, `mul32`).
* The module-level variables of the file form the record `Ctrl`.
* The PWM module, the watchdog and the interrupt controller are reached only
  through driver-library calls; the record `Hw` keeps the last value written
  through each of them, the record `Events` counts the calls that have no
  lasting register value (synchronous updates, software interrupts, ...).
* Macros that come from headers (`UI_PARAM_*`, `PWM_CLOCK`, ...) and the two
  queries `MainIsRunning()` / `MainIsFaulted()` are fields of `Env`.
-/

namespace PwmCtrl

/-! ## 32-bit unsigned arithmetic -/

/-- Addition of two `unsigned long` values. -/
def add32 (a b : Nat) : Nat := (a + b) % 4294967296

/-- Subtraction of two `unsigned long` values (wraps around below zero). -/
def sub32 (a b : Nat) : Nat := (a + (4294967296 - b % 4294967296)) % 4294967296

/-- Multiplication of two `unsigned long` values. -/
def mul32 (a b : Nat) : Nat := (a * b) % 4294967296

/-! ## Output bit masks (`driverlib/pwm.h`) -/

def PWM_OUT_0_BIT : Nat := 0x01
def PWM_OUT_1_BIT : Nat := 0x02
def PWM_OUT_2_BIT : Nat := 0x04
def PWM_OUT_3_BIT : Nat := 0x08
def PWM_OUT_4_BIT : Nat := 0x10
def PWM_OUT_5_BIT : Nat := 0x20

/-- The mask `PWM_OUT_0_BIT | ... | PWM_OUT_5_BIT` used throughout the file. -/
def PWM_OUT_ALL : Nat :=
  PWM_OUT_0_BIT ||| PWM_OUT_1_BIT ||| PWM_OUT_2_BIT |||
  PWM_OUT_3_BIT ||| PWM_OUT_4_BIT ||| PWM_OUT_5_BIT

/-! ## Data model -/

/-- The value of `UI_PARAM_PWM_FREQUENCY`, one of the `PWM_FREQUENCY_*`
selectors; `other` is any value that reaches the `default:` label. -/
inductive FreqSel where
  | f8K | f12K | f16K | f20K | f25K | f40K | f50K | f80K | other
  deriving DecidableEq, Repr

/-- What `pwm_ctrl.c` takes from its headers and from the rest of the
application: the `UI_PARAM_*` parameters, the clock constants and the two
queries about the drive. -/
structure Env where
  /-- Macro `UI_PARAM_PWM_DEAD_TIME` -/
  UI_PARAM_PWM_DEAD_TIME : Nat
  /-- Macro `UI_PARAM_PWM_MIN_PULSE` -/
  UI_PARAM_PWM_MIN_PULSE : Nat
  /-- Macro `UI_PARAM_PWM_UPDATE` -/
  UI_PARAM_PWM_UPDATE : Nat
  /-- Macro `UI_PARAM_PWM_FREQUENCY` -/
  UI_PARAM_PWM_FREQUENCY : FreqSel
  /-- Macro `UI_PARAM_MODULATION` -/
  UI_PARAM_MODULATION : Nat
  /-- Macro `MODULATION_SINE` -/
  MODULATION_SINE : Nat
  /-- Macro `DECAY_SLOW` -/
  DECAY_SLOW : Nat
  /-- Macro `PWM_CLOCK`, the PWM clock rate in Hz -/
  PWM_CLOCK : Nat
  /-- Macro `PWM_CLOCK_WIDTH`, the width of one PWM clock -/
  PWM_CLOCK_WIDTH : Nat
  /-- Macro `WATCHDOG_RELOAD_VALUE` -/
  WATCHDOG_RELOAD_VALUE : Nat
  /-- Result of `MainIsRunning()` -/
  mainIsRunning : Bool
  /-- Result of `MainIsFaulted()` (the fault latch) -/
  mainIsFaulted : Bool
  deriving DecidableEq, Repr

/-- The module-level variables of `pwm_ctrl.c`.  The three flag bits of
`g_ulPWMFlags`, which the code reads and writes one bit at a time through
`HWREGBITW`, are three Booleans. -/
structure Ctrl where
  /-- Variable `g_ulPWMClock` -/
  g_ulPWMClock : Nat
  /-- Variable `g_ulPWMWidth` -/
  g_ulPWMWidth : Nat
  /-- Variable `g_ulPWMFrequency` -/
  g_ulPWMFrequency : Nat
  /-- Variable `g_ulPWMDutyCycleA` -/
  g_ulPWMDutyCycleA : Nat
  /-- Variable `g_ulPWMDutyCycleB` -/
  g_ulPWMDutyCycleB : Nat
  /-- Variable `g_ulPWMDutyCycleC` -/
  g_ulPWMDutyCycleC : Nat
  /-- Variable `g_ulMinPulseWidth` -/
  g_ulMinPulseWidth : Nat
  /-- Bit `PWM_FLAG_NEW_FREQUENCY` of `g_ulPWMFlags` -/
  flagNewFrequency : Bool
  /-- Bit `PWM_FLAG_NEW_DUTY_CYCLE` of `g_ulPWMFlags` -/
  flagNewDutyCycle : Bool
  /-- Bit `PWM_FLAG_NEW_PRECHARGE` of `g_ulPWMFlags` -/
  flagNewPrecharge : Bool
  /-- Variable `g_ulPWMPeriodCount` -/
  g_ulPWMPeriodCount : Nat
  /-- Variable `g_ulPWMMillisecondCount` -/
  g_ulPWMMillisecondCount : Nat
  /-- Variable `g_ulTrapDutyCycle` -/
  g_ulTrapDutyCycle : Nat
  /-- Variable `g_ucDecayMode` -/
  g_ucDecayMode : Nat
  deriving DecidableEq, Repr

/-- Modelled from the spec: the driver-library calls (`PWMGenPeriodSet`,
`PWMPulseWidthSet`, `PWMOutputState`, `PWMDeadBandEnable`,
`PWMDeadBandDisable`, `WatchdogReloadSet`, `IntEnable`, `IntDisable`), whose
bodies are outside `pwm_ctrl.c`.  Following the capability interface of the
specification (set period, set pulse width, set output enable, set dead band,
interrupt masking), the hardware is the record of the value last written
through each call. -/
structure Hw where
  /-- Period given to `PWMGenPeriodSet` for `PWM_GEN_0` -/
  period0 : Nat
  /-- Period given to `PWMGenPeriodSet` for `PWM_GEN_1` -/
  period1 : Nat
  /-- Period given to `PWMGenPeriodSet` for `PWM_GEN_2` -/
  period2 : Nat
  /-- Width given to `PWMPulseWidthSet` for `PWM_OUT_0` -/
  width0 : Nat
  /-- Width given to `PWMPulseWidthSet` for `PWM_OUT_1` -/
  width1 : Nat
  /-- Width given to `PWMPulseWidthSet` for `PWM_OUT_2` -/
  width2 : Nat
  /-- Width given to `PWMPulseWidthSet` for `PWM_OUT_3` -/
  width3 : Nat
  /-- Width given to `PWMPulseWidthSet` for `PWM_OUT_4` -/
  width4 : Nat
  /-- Width given to `PWMPulseWidthSet` for `PWM_OUT_5` -/
  width5 : Nat
  /-- Output enable register driven by `PWMOutputState`, bit `i` for
  output `i` -/
  outEnable : Nat
  /-- Dead band of `PWM_GEN_0`: `none` when disabled, else rise and fall
  delays -/
  deadBand0 : Option (Nat × Nat)
  /-- Dead band of `PWM_GEN_1` -/
  deadBand1 : Option (Nat × Nat)
  /-- Dead band of `PWM_GEN_2` -/
  deadBand2 : Option (Nat × Nat)
  /-- Watchdog load value last given to `WatchdogReloadSet` -/
  wdtLoad : Nat
  /-- Interrupt `INT_PWM0_0` enabled in the interrupt controller -/
  intPWM0 : Bool
  /-- Interrupt `INT_ADC0SS0` enabled in the interrupt controller -/
  intADC0SS0 : Bool
  /-- Interrupt `INT_ADC0SS3` enabled in the interrupt controller -/
  intADC0SS3 : Bool
  deriving DecidableEq, Repr

/-- Counts of the hardware requests that leave no register value behind. -/
structure Events where
  /-- Calls of `PWMSyncUpdate` on the three generators (hardware commits) -/
  syncUpdates : Nat
  /-- Writes of `INT_PWM0_1 - 16` to `NVIC_SW_TRIG` (waveform interrupt) -/
  swWaveform : Nat
  /-- Writes of `INT_PWM0_2 - 16` to `NVIC_SW_TRIG` (millisecond interrupt) -/
  swMillisecond : Nat
  /-- Calls of `WatchdogReloadSet` -/
  wdtReloads : Nat
  /-- Calls of `PWMGenIntClear` -/
  intClears : Nat
  deriving DecidableEq, Repr

/-- The whole state seen by the functions of `pwm_ctrl.c`. -/
structure State where
  ctrl : Ctrl
  hw : Hw
  ev : Events
  deriving DecidableEq, Repr

/-! ## Driver-library calls -/

/-- Modelled from the spec: `PWMGenPeriodSet` on `PWM_GEN_0`, `PWM_GEN_1` and
`PWM_GEN_2` with one period, as the file always calls it. -/
def PWMGenPeriodSetAll (ulPeriod : Nat) (s : State) : State :=
  { s with hw := { s.hw with period0 := ulPeriod, period1 := ulPeriod, period2 := ulPeriod } }

/-- Modelled from the spec: `PWMOutputState(PWM0_BASE, ulPWMOutBits, bEnable)`
sets the given bits of the output enable register when `bEnable` is true and
clears them otherwise. -/
def PWMOutputState (ulPWMOutBits : Nat) (bEnable : Bool) (s : State) : State :=
  if bEnable then
    { s with hw := { s.hw with outEnable := s.hw.outEnable ||| ulPWMOutBits } }
  else
    { s with hw := { s.hw with outEnable := s.hw.outEnable &&& (4294967295 ^^^ ulPWMOutBits) } }

/-- Modelled from the spec: `PWMSyncUpdate` on the three generators, one
synchronous hardware commit. -/
def PWMSyncUpdate (s : State) : State :=
  { s with ev := { s.ev with syncUpdates := s.ev.syncUpdates + 1 } }

/-- Modelled from the spec: `WatchdogReloadSet(WATCHDOG0_BASE, ulLoadVal)`. -/
def WatchdogReloadSet (ulLoadVal : Nat) (s : State) : State :=
  { s with hw := { s.hw with wdtLoad := ulLoadVal },
           ev := { s.ev with wdtReloads := s.ev.wdtReloads + 1 } }

/-- Modelled from the spec: `IntEnable(INT_PWM0_0)` and `IntDisable(INT_PWM0_0)`. -/
def IntSetPWM0 (b : Bool) (s : State) : State :=
  { s with hw := { s.hw with intPWM0 := b } }

/-- Is output `i` enabled in the output enable register? -/
def outputEnabled (s : State) (i : Nat) : Bool := s.hw.outEnable.testBit i

/-! ## The functions of `pwm_ctrl.c` -/

/-- Function `PWMSetMinPulseWidth`. -/
def PWMSetMinPulseWidth (e : Env) (s : State) : State :=
  let w := add32 (add32 (mul32 (add32 e.UI_PARAM_PWM_DEAD_TIME 1) 20)
                        (mul32 e.UI_PARAM_PWM_MIN_PULSE 100))
                 (sub32 e.PWM_CLOCK_WIDTH 1) / e.PWM_CLOCK_WIDTH
  let w := if e.UI_PARAM_PWM_MIN_PULSE = 0 then add32 w 1 else w
  { s with ctrl := { s.ctrl with g_ulMinPulseWidth := w } }

/-- Function `PWMSetDeadBand`. -/
def PWMSetDeadBand (e : Env) (s : State) : State :=
  let d := some (e.UI_PARAM_PWM_DEAD_TIME, e.UI_PARAM_PWM_DEAD_TIME)
  PWMSetMinPulseWidth e
    { s with hw := { s.hw with deadBand0 := d, deadBand1 := d, deadBand2 := d } }

/-- Function `PWMClearDeadBand`. -/
def PWMClearDeadBand (e : Env) (s : State) : State :=
  PWMSetMinPulseWidth e
    { s with hw := { s.hw with deadBand0 := none, deadBand1 := none, deadBand2 := none } }

/-- The frequency and the divisor of `PWM_CLOCK` chosen by the `switch` of
`PWMSetFrequency`. -/
def freqOf : FreqSel → Nat
  | .f8K => 8000
  | .f12K => 12500
  | .f16K => 16000
  | .f25K => 25000
  | .f40K => 40000
  | .f50K => 50000
  | .f80K => 80000
  | .f20K => 20000
  | .other => 20000

/-- Function `PWMSetFrequency`. -/
def PWMSetFrequency (e : Env) (s : State) : State :=
  let s : State := IntSetPWM0 false s
  let f := freqOf e.UI_PARAM_PWM_FREQUENCY
  let s : State := { s with ctrl := { s.ctrl with g_ulPWMFrequency := f,
                                                  g_ulPWMClock := e.PWM_CLOCK / f } }
  let s : State := if e.mainIsRunning then
             { s with ctrl := { s.ctrl with flagNewFrequency := true } }
           else s
  IntSetPWM0 true s

/-- The conversion of one duty cycle to a pulse width that
`PWMUpdateDutyCycle` performs for each phase (and `PWMOutputPrecharge` once):
scale by the period, then the three clamps in source order. -/
def dutyToWidth (ulDutyCycle ulPWMClock ulMinPulseWidth : Nat) : Nat :=
  let w := mul32 ulDutyCycle ulPWMClock / 65536
  let w := if w > ulPWMClock then ulPWMClock else w
  let w := if w < ulMinPulseWidth then ulMinPulseWidth else w
  if sub32 ulPWMClock w < ulMinPulseWidth then sub32 ulPWMClock ulMinPulseWidth else w

/-- Function `PWMUpdateDutyCycle` (`CommitDutyCycle` of the specification). -/
def PWMUpdateDutyCycle (e : Env) (s : State) : State :=
  let clk := s.ctrl.g_ulPWMClock
  let ulWidthA := dutyToWidth s.ctrl.g_ulPWMDutyCycleA clk s.ctrl.g_ulMinPulseWidth
  let ulWidthB := dutyToWidth s.ctrl.g_ulPWMDutyCycleB clk s.ctrl.g_ulMinPulseWidth
  let ulWidthC := dutyToWidth s.ctrl.g_ulPWMDutyCycleC clk s.ctrl.g_ulMinPulseWidth
  let width := add32 (add32 ulWidthA ulWidthB) ulWidthC / 3
  let s : State := { s with ctrl := { s.ctrl with g_ulPWMWidth := width,
                                                  g_ulTrapDutyCycle := mul32 width 10000 / clk } }
  let s : State := { s with hw := { s.hw with width0 := ulWidthA, width1 := ulWidthA,
                                              width2 := ulWidthB, width3 := ulWidthB,
                                              width4 := ulWidthC, width5 := ulWidthC } }
  let s : State := if e.UI_PARAM_MODULATION ≠ e.MODULATION_SINE ∧ s.ctrl.g_ucDecayMode = e.DECAY_SLOW then
             let w := sub32 clk e.UI_PARAM_PWM_DEAD_TIME
             { s with hw := { s.hw with width1 := w, width3 := w, width5 := w } }
           else s
  PWMSyncUpdate s

/-- Function `PWMGetPeriodCount`. -/
def PWMGetPeriodCount (s : State) : Nat := s.ctrl.g_ulPWMPeriodCount

/-- Function `PWMReducePeriodCount`. -/
def PWMReducePeriodCount (ulCount : Nat) (s : State) : State :=
  let s : State := IntSetPWM0 false s
  let s : State := { s with ctrl := { s.ctrl with
                       g_ulPWMPeriodCount := sub32 s.ctrl.g_ulPWMPeriodCount ulCount } }
  IntSetPWM0 true s

/-- First statements of `PWM0IntHandler`: the interrupt is cleared twice and
`g_ulPWMPeriodCount` is incremented. -/
def isrAcknowledge (s : State) : State :=
  let s : State := { s with ev := { s.ev with intClears := s.ev.intClears + 2 } }
  { s with ctrl := { s.ctrl with
      g_ulPWMPeriodCount := add32 s.ctrl.g_ulPWMPeriodCount 1 } }

/-- Second block of `PWM0IntHandler`: when enough periods have passed and a
new duty cycle is waiting, the period is written if a new frequency is
waiting, the duty cycle is committed and both flags are cleared. -/
def isrUpdate (e : Env) (s : State) : State :=
  if s.ctrl.g_ulPWMPeriodCount > e.UI_PARAM_PWM_UPDATE ∧ s.ctrl.flagNewDutyCycle = true then
    let s : State :=
      if s.ctrl.flagNewFrequency = true then
        let s : State := PWMGenPeriodSetAll s.ctrl.g_ulPWMClock s
        { s with ctrl := { s.ctrl with flagNewFrequency := false } }
      else s
    let s : State := PWMUpdateDutyCycle e s
    { s with ctrl := { s.ctrl with flagNewDutyCycle := false } }
  else s

/-- Third block of `PWM0IntHandler`: the start of a precharge cycle enables
the low side outputs. -/
def isrPrecharge (s : State) : State :=
  if s.ctrl.flagNewPrecharge = true then
    let s : State :=
      PWMOutputState (PWM_OUT_1_BIT ||| PWM_OUT_3_BIT ||| PWM_OUT_5_BIT) true s
    { s with ctrl := { s.ctrl with flagNewPrecharge := false } }
  else s

/-- Fourth block of `PWM0IntHandler`: once the required number of periods
has expired, the waveform update interrupt is triggered in sine modulation
and the period count is reduced otherwise. -/
def isrWaveform (e : Env) (s : State) : State :=
  if s.ctrl.g_ulPWMPeriodCount ≥ add32 e.UI_PARAM_PWM_UPDATE 1 then
    if e.UI_PARAM_MODULATION = e.MODULATION_SINE then
      { s with ev := { s.ev with swWaveform := s.ev.swWaveform + 1 } }
    else
      PWMReducePeriodCount
        (mul32 (PWMGetPeriodCount s / add32 e.UI_PARAM_PWM_UPDATE 1)
               (add32 e.UI_PARAM_PWM_UPDATE 1)) s
  else s

/-- Last block of `PWM0IntHandler`: the millisecond counter and the
millisecond interrupt. -/
def isrMillisecond (s : State) : State :=
  let s : State := { s with ctrl := { s.ctrl with
      g_ulPWMMillisecondCount := add32 s.ctrl.g_ulPWMMillisecondCount 1000 } }
  if s.ctrl.g_ulPWMMillisecondCount ≥ s.ctrl.g_ulPWMFrequency then
    let s : State := { s with ev := { s.ev with swMillisecond := s.ev.swMillisecond + 1 } }
    { s with ctrl := { s.ctrl with
        g_ulPWMMillisecondCount :=
          sub32 s.ctrl.g_ulPWMMillisecondCount s.ctrl.g_ulPWMFrequency } }
  else s

/-- Function `PWM0IntHandler`, the handler of the PWM zero interrupt: its
five blocks in source order. -/
def PWM0IntHandler (e : Env) (s : State) : State :=
  isrMillisecond (isrWaveform e (isrPrecharge (isrUpdate e (isrAcknowledge s))))

/-- Function `PWMSetDutyCycle`. -/
def PWMSetDutyCycle (e : Env) (ulDutyCycleA ulDutyCycleB ulDutyCycleC : Nat) (s : State) : State :=
  let s : State := if e.UI_PARAM_MODULATION = e.MODULATION_SINE then
             WatchdogReloadSet e.WATCHDOG_RELOAD_VALUE s
           else s
  let s : State := IntSetPWM0 false s
  let s : State := { s with ctrl := { s.ctrl with g_ulPWMDutyCycleA := ulDutyCycleA,
                                                  g_ulPWMDutyCycleB := ulDutyCycleB,
                                                  g_ulPWMDutyCycleC := ulDutyCycleC,
                                                  flagNewDutyCycle := true } }
  IntSetPWM0 true s

/-- Function `PWMOutputPrecharge`. -/
def PWMOutputPrecharge (e : Env) (s : State) : State :=
  if e.mainIsFaulted then s
  else
    let s : State := WatchdogReloadSet e.WATCHDOG_RELOAD_VALUE s
    let s : State := PWMClearDeadBand e s
    let s : State := PWMOutputState PWM_OUT_ALL false s
    let s : State := PWMGenPeriodSetAll s.ctrl.g_ulPWMClock s
    let d := (50 * 65535) / 100
    let s : State := { s with ctrl := { s.ctrl with g_ulPWMDutyCycleA := d,
                                                    g_ulPWMDutyCycleB := d,
                                                    g_ulPWMDutyCycleC := d } }
    let ulTemp := dutyToWidth s.ctrl.g_ulPWMDutyCycleA s.ctrl.g_ulPWMClock s.ctrl.g_ulMinPulseWidth
    let s : State := { s with ctrl := { s.ctrl with
                         g_ulPWMWidth := ulTemp,
                         g_ulTrapDutyCycle := mul32 ulTemp 10000 / s.ctrl.g_ulPWMClock } }
    let s : State := { s with hw := { s.hw with width0 := ulTemp, width1 := ulTemp,
                                                width2 := ulTemp, width3 := ulTemp,
                                                width4 := ulTemp, width5 := ulTemp } }
    let s : State := PWMSyncUpdate s
    { s with ctrl := { s.ctrl with flagNewPrecharge := true } }

/-- Function `PWMOutputOn`. -/
def PWMOutputOn (e : Env) (s : State) : State :=
  if e.mainIsFaulted then s
  else
    let s : State := WatchdogReloadSet e.WATCHDOG_RELOAD_VALUE s
    let s : State := PWMSetDeadBand e s
    PWMOutputState PWM_OUT_ALL true s

/-- Function `PWMOutputTrapezoid`. -/
def PWMOutputTrapezoid (e : Env) (ulEnable : Nat) (s : State) : State :=
  if e.mainIsFaulted then s
  else
    let s : State := { s with hw := { s.hw with intADC0SS0 := false, intADC0SS3 := false } }
    let s : State := WatchdogReloadSet e.WATCHDOG_RELOAD_VALUE s
    let s : State := PWMOutputState (ulEnable ^^^ PWM_OUT_ALL) false s
    let s : State := PWMOutputState ulEnable true s
    { s with hw := { s.hw with intADC0SS3 := true, intADC0SS0 := true } }

/-- Function `PWMOutputOff`. -/
def PWMOutputOff (e : Env) (s : State) : State :=
  let s : State := PWMOutputState PWM_OUT_ALL false s
  let s : State := { s with ctrl := { s.ctrl with g_ulPWMDutyCycleA := 32768,
                                                  g_ulPWMDutyCycleB := 32768,
                                                  g_ulPWMDutyCycleC := 32768 } }
  let s : State := PWMGenPeriodSetAll (e.PWM_CLOCK / 1000) s
  let s : State := PWMClearDeadBand e s
  PWMUpdateDutyCycle e s

/-- The state after `n` consecutive firings of the PWM interrupt. -/
def fireISR (e : Env) : Nat → State → State
  | 0, s => s
  | n + 1, s => fireISR e n (PWM0IntHandler e s)

/-- The state after a sequence of `PWMSetDutyCycle` calls, given by their
argument triples in call order. -/
def setDutyCycles (e : Env) : List (Nat × Nat × Nat) → State → State
  | [], s => s
  | (a, b, c) :: rest, s => setDutyCycles e rest (PWMSetDutyCycle e a b c s)

/-! ## Reading the state the way the specification names it -/

/-- The three motor phases. -/
inductive Phase where
  | A | B | C
  deriving DecidableEq, Repr

/-- The stored duty cycle of a phase. -/
def dutyOf (s : State) : Phase → Nat
  | .A => s.ctrl.g_ulPWMDutyCycleA
  | .B => s.ctrl.g_ulPWMDutyCycleB
  | .C => s.ctrl.g_ulPWMDutyCycleC

/-- The pulse width written for a phase: `PWMUpdateDutyCycle` writes
`ulWidthA`, `ulWidthB`, `ulWidthC` to `PWM_OUT_0`, `PWM_OUT_2`, `PWM_OUT_4`,
and nothing overwrites these three afterwards. -/
def phaseWidth (s : State) : Phase → Nat
  | .A => s.hw.width0
  | .B => s.hw.width2
  | .C => s.hw.width4

/-- The arguments of a `PWMSetDutyCycle` call that belong to a phase. -/
def argOf (a b c : Nat) : Phase → Nat
  | .A => a
  | .B => b
  | .C => c

/-- The ceiling of `x / w` as the specification writes it, over the
rationals. -/
def ceilDivSpec (x w : Nat) : Nat := ⌈(x : ℚ) / (w : ℚ)⌉₊

/-! ## Concrete configurations -/

/-- A configuration of the board: 50 MHz PWM clock of 20 ns, sine modulation,
waveform update every second PWM period. -/
def boardEnv : Env :=
  { UI_PARAM_PWM_DEAD_TIME := 3, UI_PARAM_PWM_MIN_PULSE := 25, UI_PARAM_PWM_UPDATE := 1,
    UI_PARAM_PWM_FREQUENCY := .f20K, UI_PARAM_MODULATION := 2, MODULATION_SINE := 2,
    DECAY_SLOW := 1, PWM_CLOCK := 50000000, PWM_CLOCK_WIDTH := 20,
    WATCHDOG_RELOAD_VALUE := 5000000, mainIsRunning := true, mainIsFaulted := false }

/-- The configuration `boardEnv` with the fault latch set. -/
def faultedEnv : Env := { boardEnv with mainIsFaulted := true }

/-- The configuration `boardEnv` with dead time and minimum pulse width
parameters both zero. -/
def zeroPulseEnv : Env :=
  { boardEnv with UI_PARAM_PWM_DEAD_TIME := 0, UI_PARAM_PWM_MIN_PULSE := 0 }

/-- A state with a period of 1000 clocks, a minimum pulse of 50 clocks and
all counters at zero. -/
def state1000 : State :=
  { ctrl := { g_ulPWMClock := 1000, g_ulPWMWidth := 500, g_ulPWMFrequency := 20000,
              g_ulPWMDutyCycleA := 32768, g_ulPWMDutyCycleB := 0, g_ulPWMDutyCycleC := 65535,
              g_ulMinPulseWidth := 50, flagNewFrequency := false, flagNewDutyCycle := false,
              flagNewPrecharge := false, g_ulPWMPeriodCount := 0,
              g_ulPWMMillisecondCount := 0, g_ulTrapDutyCycle := 5000, g_ucDecayMode := 0 },
    hw := { period0 := 1000, period1 := 1000, period2 := 1000,
            width0 := 500, width1 := 500, width2 := 500, width3 := 500,
            width4 := 500, width5 := 500, outEnable := 63,
            deadBand0 := some (3, 3), deadBand1 := some (3, 3), deadBand2 := some (3, 3),
            wdtLoad := 0, intPWM0 := true, intADC0SS0 := true, intADC0SS3 := true },
    ev := { syncUpdates := 0, swWaveform := 0, swMillisecond := 0, wdtReloads := 0,
            intClears := 0 } }

/-- The configuration `boardEnv` with the 8 kHz frequency selected. -/
def env8k : Env := { boardEnv with UI_PARAM_PWM_FREQUENCY := .f8K }

/-- The configuration `boardEnv` while the drive is not running. -/
def stoppedEnv : Env := { boardEnv with mainIsRunning := false }

/-- The configuration `boardEnv` with a modulation other than sine. -/
def trapezoidEnv : Env := { boardEnv with UI_PARAM_MODULATION := 0 }

/-- The state `state1000` with the slow decay mode. -/
def stateSlowDecay : State :=
  { state1000 with ctrl := { state1000.ctrl with g_ucDecayMode := 1 } }

/-! ## Interleavings of calls and firings -/

/-- One event of an interleaving: a call of `PWMSetDutyCycle` with its three
arguments, or one firing of the PWM interrupt. -/
inductive Op where
  | setDuty (a b c : Nat)
  | fire
  deriving DecidableEq, Repr

/-- For each firing of an interleaving, in order, whether that firing
performed a hardware commit (a call of `PWMSyncUpdate`). -/
def commitLog (e : Env) : List Op → State → List Bool
  | [], _ => []
  | .setDuty a b c :: rest, s => commitLog e rest (PWMSetDutyCycle e a b c s)
  | .fire :: rest, s =>
    decide ((PWM0IntHandler e s).ev.syncUpdates ≠ s.ev.syncUpdates)
      :: commitLog e rest (PWM0IntHandler e s)

/-- The state after `n` firings of the PWM interrupt when every raised
waveform interrupt is answered, before the next firing, by
`PWMReducePeriodCount (UI_PARAM_PWM_UPDATE + 1)`. -/
def fireAnswered (e : Env) : Nat → State → State
  | 0, s => s
  | n + 1, s =>
    fireAnswered e n
      (if (PWM0IntHandler e s).ev.swWaveform ≠ s.ev.swWaveform then
         PWMReducePeriodCount (e.UI_PARAM_PWM_UPDATE + 1) (PWM0IntHandler e s)
       else PWM0IntHandler e s)

/-! ## Arithmetic of the 32-bit operations -/

theorem add32_of_lt {a b : Nat} (h : a + b < 4294967296) : add32 a b = a + b := by
  unfold add32; omega

theorem sub32_of_le {a b : Nat} (hb : b ≤ a) (ha : a < 4294967296) : sub32 a b = a - b := by
  unfold sub32; omega

theorem mul32_of_lt {a b : Nat} (h : a * b < 4294967296) : mul32 a b = a * b := by
  unfold mul32; omega

/-- The three clamps of the source put every width into `[m, P - m]`, for
every duty cycle value, once `2 * m ≤ P`. -/
theorem dutyToWidth_bounds (f P m : Nat) (hP : P < 4294967296) (hm : 2 * m ≤ P) :
    m ≤ dutyToWidth f P m ∧ dutyToWidth f P m ≤ P - m := by
  unfold dutyToWidth sub32
  simp only
  split_ifs <;> omega

/-- Without overflow of the product the width is the scaled duty cycle
clamped to `[m, P - m]`. -/
theorem dutyToWidth_eq_clamp (f P m : Nat) (hP : P < 4294967296) (hm : 2 * m ≤ P)
    (hfP : f * P < 4294967296) :
    dutyToWidth f P m = min (max (f * P / 65536) m) (P - m) := by
  unfold dutyToWidth sub32
  rw [mul32_of_lt hfP]
  simp only
  split_ifs <;> omega

@[simp] theorem phaseWidth_PWMUpdateDutyCycle (e : Env) (s : State) (ph : Phase) :
    phaseWidth (PWMUpdateDutyCycle e s) ph =
      dutyToWidth (dutyOf s ph) s.ctrl.g_ulPWMClock s.ctrl.g_ulMinPulseWidth := by
  cases ph <;> simp only [PWMUpdateDutyCycle, PWMSyncUpdate, phaseWidth, dutyOf] <;>
    split_ifs <;> rfl

/-! ## Pulse widths stay within the minimum pulse width -/

/-- Claim C1: for a period `P` and a minimum pulse `m` with `m < P / 2`, each of
the three phase widths that `PWMUpdateDutyCycle` computes and writes lies
between `m` and `P - m`.  This holds for every stored duty value, so in
particular for every duty fraction below 65536. -/
theorem C1_phase_widths_within_min_pulse (e : Env) (s : State) (ph : Phase)
    (hP : s.ctrl.g_ulPWMClock < 4294967296)
    (hm : s.ctrl.g_ulMinPulseWidth < s.ctrl.g_ulPWMClock / 2) :
    s.ctrl.g_ulMinPulseWidth ≤ phaseWidth (PWMUpdateDutyCycle e s) ph ∧
    phaseWidth (PWMUpdateDutyCycle e s) ph ≤
      s.ctrl.g_ulPWMClock - s.ctrl.g_ulMinPulseWidth := by
  rw [phaseWidth_PWMUpdateDutyCycle]
  exact dutyToWidth_bounds _ _ _ hP (by omega)

/-- Claim C1 at period 1000, minimum pulse 50 and duty fraction 65535. -/
theorem C1_phase_widths_within_min_pulse_witness :
    50 ≤ phaseWidth (PWMUpdateDutyCycle boardEnv state1000) Phase.C ∧
    phaseWidth (PWMUpdateDutyCycle boardEnv state1000) Phase.C ≤ 1000 - 50 :=
  C1_phase_widths_within_min_pulse boardEnv state1000 Phase.C (by decide) (by decide)

/-! ## The fault latch -/

/-- Claim C2: with the fault latch set, `PWMOutputOn`, `PWMOutputPrecharge`
and `PWMOutputTrapezoid` (for every mask) return the state they were given:
no variable of the controller and no part of the hardware changes. -/
theorem C2_faulted_transitions_are_noops (e : Env) (s : State) (ulEnable : Nat)
    (hfault : e.mainIsFaulted = true) :
    PWMOutputOn e s = s ∧ PWMOutputPrecharge e s = s ∧
    PWMOutputTrapezoid e ulEnable s = s := by
  simp [PWMOutputOn, PWMOutputPrecharge, PWMOutputTrapezoid, hfault]

/-- Claim C2 on a running state with all six outputs enabled. -/
theorem C2_faulted_transitions_are_noops_witness :
    PWMOutputOn faultedEnv state1000 = state1000 ∧
    PWMOutputPrecharge faultedEnv state1000 = state1000 ∧
    PWMOutputTrapezoid faultedEnv 9 state1000 = state1000 :=
  C2_faulted_transitions_are_noops faultedEnv state1000 9 rfl

/-- Clearing the six output bits leaves none of the six outputs enabled. -/
theorem testBit_clear_outputs (x i : Nat) (hi : i < 6) :
    (x &&& (4294967295 ^^^ PWM_OUT_ALL)).testBit i = false := by
  rw [Nat.testBit_and]
  have h : (4294967295 ^^^ PWM_OUT_ALL).testBit i = false := by
    interval_cases i <;> decide
  rw [h, Bool.and_false]

@[simp] theorem outEnable_PWMUpdateDutyCycle (e : Env) (s : State) :
    (PWMUpdateDutyCycle e s).hw.outEnable = s.hw.outEnable := by
  simp only [PWMUpdateDutyCycle, PWMSyncUpdate]
  split_ifs <;> rfl

/-- Claim C3: from every state `PWMOutputOff` leaves the six outputs
disabled, the dead band of the three generators disabled, the three stored
duty cycles at 32768 and the three periods at `PWM_CLOCK / 1000`; the function
never reads the fault latch, so the result is the same for both of its
values. -/
theorem C3_output_off_unconditional (e : Env) (s : State) :
    (outputEnabled (PWMOutputOff e s) 0 = false ∧
     outputEnabled (PWMOutputOff e s) 1 = false ∧
     outputEnabled (PWMOutputOff e s) 2 = false ∧
     outputEnabled (PWMOutputOff e s) 3 = false ∧
     outputEnabled (PWMOutputOff e s) 4 = false ∧
     outputEnabled (PWMOutputOff e s) 5 = false) ∧
    ((PWMOutputOff e s).hw.deadBand0 = none ∧
     (PWMOutputOff e s).hw.deadBand1 = none ∧
     (PWMOutputOff e s).hw.deadBand2 = none) ∧
    ((PWMOutputOff e s).ctrl.g_ulPWMDutyCycleA = 32768 ∧
     (PWMOutputOff e s).ctrl.g_ulPWMDutyCycleB = 32768 ∧
     (PWMOutputOff e s).ctrl.g_ulPWMDutyCycleC = 32768) ∧
    ((PWMOutputOff e s).hw.period0 = e.PWM_CLOCK / 1000 ∧
     (PWMOutputOff e s).hw.period1 = e.PWM_CLOCK / 1000 ∧
     (PWMOutputOff e s).hw.period2 = e.PWM_CLOCK / 1000) ∧
    PWMOutputOff { e with mainIsFaulted := true } s =
      PWMOutputOff { e with mainIsFaulted := false } s := by
  refine ⟨?_, ?_, ?_, ?_, ?_⟩
  · simp only [outputEnabled, PWMOutputOff, outEnable_PWMUpdateDutyCycle, PWMClearDeadBand,
      PWMSetMinPulseWidth, PWMGenPeriodSetAll, PWMOutputState, Bool.false_eq_true, if_false]
    exact ⟨testBit_clear_outputs _ 0 (by decide), testBit_clear_outputs _ 1 (by decide),
      testBit_clear_outputs _ 2 (by decide), testBit_clear_outputs _ 3 (by decide),
      testBit_clear_outputs _ 4 (by decide), testBit_clear_outputs _ 5 (by decide)⟩
  · simp only [PWMOutputOff, PWMUpdateDutyCycle, PWMSyncUpdate]
    split_ifs <;> simp [PWMClearDeadBand, PWMSetMinPulseWidth]
  · simp only [PWMOutputOff, PWMUpdateDutyCycle, PWMSyncUpdate]
    split_ifs <;> simp [PWMClearDeadBand, PWMSetMinPulseWidth, PWMGenPeriodSetAll]
  · simp only [PWMOutputOff, PWMUpdateDutyCycle, PWMSyncUpdate]
    split_ifs <;> simp [PWMClearDeadBand, PWMSetMinPulseWidth, PWMGenPeriodSetAll]
  · rfl

/-! ## Duty cycles are handed over to the interrupt handler -/

/-- The precharge block changes at most the output enables and its flag. -/
theorem isrPrecharge_frame (s : State) : ∃ oe b, isrPrecharge s =
    { s with hw := { s.hw with outEnable := oe },
             ctrl := { s.ctrl with flagNewPrecharge := b } } := by
  unfold isrPrecharge
  split_ifs
  · exact ⟨_, _, rfl⟩
  · exact ⟨_, _, rfl⟩

/-- The waveform block changes at most the period count, the mask of the PWM
interrupt and the count of waveform interrupts. -/
theorem isrWaveform_frame (e : Env) (s : State) : ∃ cnt ie n, isrWaveform e s =
    { s with hw := { s.hw with intPWM0 := ie },
             ctrl := { s.ctrl with g_ulPWMPeriodCount := cnt },
             ev := { s.ev with swWaveform := n } } := by
  unfold isrWaveform
  split_ifs
  · exact ⟨_, _, _, rfl⟩
  · exact ⟨_, _, _, rfl⟩
  · exact ⟨_, _, _, rfl⟩

/-- The millisecond block changes at most the millisecond counter and the
count of millisecond interrupts. -/
theorem isrMillisecond_frame (s : State) : ∃ ms n, isrMillisecond s =
    { s with ctrl := { s.ctrl with g_ulPWMMillisecondCount := ms },
             ev := { s.ev with swMillisecond := n } } := by
  unfold isrMillisecond
  simp only
  split_ifs
  · exact ⟨_, _, rfl⟩
  · exact ⟨_, _, rfl⟩

/-- The three last blocks of the handler together change none of the values
that a commit reads or writes. -/
theorem isrTail_frame (e : Env) (s : State) :
    ∃ oe b ie cnt n ms k, isrMillisecond (isrWaveform e (isrPrecharge s)) =
      { s with hw := { s.hw with outEnable := oe, intPWM0 := ie },
               ctrl := { s.ctrl with flagNewPrecharge := b, g_ulPWMPeriodCount := cnt,
                                     g_ulPWMMillisecondCount := ms },
               ev := { s.ev with swWaveform := n, swMillisecond := k } } := by
  obtain ⟨oe, b, h1⟩ := isrPrecharge_frame s
  obtain ⟨cnt, ie, n, h2⟩ := isrWaveform_frame e (isrPrecharge s)
  obtain ⟨ms, k, h3⟩ := isrMillisecond_frame (isrWaveform e (isrPrecharge s))
  exact ⟨oe, b, ie, cnt, n, ms, k, by rw [h3, h2, h1]⟩

/-- What a firing of the handler leaves alone when it does not commit. -/
theorem PWM0IntHandler_no_commit (e : Env) (s : State)
    (h : ¬ (add32 s.ctrl.g_ulPWMPeriodCount 1 > e.UI_PARAM_PWM_UPDATE ∧
            s.ctrl.flagNewDutyCycle = true)) :
    (PWM0IntHandler e s).ev.syncUpdates = s.ev.syncUpdates ∧
    (PWM0IntHandler e s).ctrl.flagNewDutyCycle = s.ctrl.flagNewDutyCycle ∧
    (∀ ph, dutyOf (PWM0IntHandler e s) ph = dutyOf s ph) ∧
    (PWM0IntHandler e s).ctrl.g_ulPWMClock = s.ctrl.g_ulPWMClock ∧
    (PWM0IntHandler e s).ctrl.g_ulMinPulseWidth = s.ctrl.g_ulMinPulseWidth := by
  have hu : isrUpdate e (isrAcknowledge s) = isrAcknowledge s := by
    unfold isrUpdate
    rw [if_neg]
    simpa [isrAcknowledge] using h
  obtain ⟨oe, b, ie, cnt, n, ms, k, ht⟩ := isrTail_frame e (isrAcknowledge s)
  unfold PWM0IntHandler
  rw [hu, ht]
  refine ⟨rfl, rfl, ?_, rfl, rfl⟩
  intro ph
  cases ph <;> rfl

/-- What a firing of the handler does when it commits. -/
theorem PWM0IntHandler_commit (e : Env) (s : State)
    (hc : add32 s.ctrl.g_ulPWMPeriodCount 1 > e.UI_PARAM_PWM_UPDATE)
    (hd : s.ctrl.flagNewDutyCycle = true) :
    (PWM0IntHandler e s).ev.syncUpdates = s.ev.syncUpdates + 1 ∧
    (PWM0IntHandler e s).ctrl.flagNewDutyCycle = false ∧
    (∀ ph, phaseWidth (PWM0IntHandler e s) ph =
      dutyToWidth (dutyOf s ph) s.ctrl.g_ulPWMClock s.ctrl.g_ulMinPulseWidth) := by
  have hu : (isrUpdate e (isrAcknowledge s)).ev.syncUpdates = s.ev.syncUpdates + 1 ∧
      (isrUpdate e (isrAcknowledge s)).ctrl.flagNewDutyCycle = false ∧
      (∀ ph, phaseWidth (isrUpdate e (isrAcknowledge s)) ph =
        dutyToWidth (dutyOf s ph) s.ctrl.g_ulPWMClock s.ctrl.g_ulMinPulseWidth) := by
    unfold isrUpdate
    rw [if_pos (by simpa [isrAcknowledge] using And.intro hc hd)]
    refine ⟨?_, rfl, ?_⟩
    · simp only [PWMUpdateDutyCycle, PWMSyncUpdate]
      split_ifs <;> rfl
    · intro ph
      have hw : ∀ t : State, phaseWidth
          { PWMUpdateDutyCycle e t with
            ctrl := { (PWMUpdateDutyCycle e t).ctrl with flagNewDutyCycle := false } } ph =
          phaseWidth (PWMUpdateDutyCycle e t) ph := by
        intro t; cases ph <;> rfl
      simp only [hw, phaseWidth_PWMUpdateDutyCycle]
      split_ifs <;> cases ph <;> rfl
  obtain ⟨oe, b, ie, cnt, n, ms, k, ht⟩ := isrTail_frame e (isrUpdate e (isrAcknowledge s))
  unfold PWM0IntHandler
  rw [ht]
  refine ⟨hu.1, hu.2.1, ?_⟩
  intro ph
  rw [← hu.2.2 ph]
  cases ph <;> rfl

/-- A sequence of calls ending in the call `(a, b, c)` is the sequence before
it followed by that call. -/
theorem setDutyCycles_append (e : Env) (calls : List (Nat × Nat × Nat)) (a b c : Nat)
    (s : State) :
    setDutyCycles e (calls ++ [(a, b, c)]) s =
      PWMSetDutyCycle e a b c (setDutyCycles e calls s) := by
  induction calls generalizing s with
  | nil => rfl
  | cons x rest ih =>
    obtain ⟨x1, x2, x3⟩ := x
    simp only [List.cons_append, setDutyCycles]
    exact ih _

/-- The variables that `PWMSetDutyCycle` writes and the ones it keeps. -/
theorem PWMSetDutyCycle_ctrl (e : Env) (a b c : Nat) (s : State) :
    (PWMSetDutyCycle e a b c s).ctrl =
      { s.ctrl with g_ulPWMDutyCycleA := a, g_ulPWMDutyCycleB := b,
                    g_ulPWMDutyCycleC := c, flagNewDutyCycle := true } ∧
    (PWMSetDutyCycle e a b c s).ev.syncUpdates = s.ev.syncUpdates := by
  unfold PWMSetDutyCycle
  simp only
  split_ifs <;> exact ⟨rfl, rfl⟩

/-- A sequence of `PWMSetDutyCycle` calls changes neither the period, the
minimum pulse width, the period count nor the number of commits. -/
theorem setDutyCycles_frame (e : Env) (calls : List (Nat × Nat × Nat)) (s : State) :
    (setDutyCycles e calls s).ctrl.g_ulPWMClock = s.ctrl.g_ulPWMClock ∧
    (setDutyCycles e calls s).ctrl.g_ulMinPulseWidth = s.ctrl.g_ulMinPulseWidth ∧
    (setDutyCycles e calls s).ctrl.g_ulPWMPeriodCount = s.ctrl.g_ulPWMPeriodCount ∧
    (setDutyCycles e calls s).ev.syncUpdates = s.ev.syncUpdates := by
  induction calls generalizing s with
  | nil => exact ⟨rfl, rfl, rfl, rfl⟩
  | cons x rest ih =>
    obtain ⟨x1, x2, x3⟩ := x
    simp only [setDutyCycles]
    obtain ⟨h1, h2, h3, h4⟩ := ih (PWMSetDutyCycle e x1 x2 x3 s)
    obtain ⟨hc, hs⟩ := PWMSetDutyCycle_ctrl e x1 x2 x3 s
    rw [h1, h2, h3, h4, hc, hs]
    exact ⟨rfl, rfl, rfl, rfl⟩

/-- Firings of the handler in which the incremented period count does not
exceed the update count commit nothing and keep the waiting duty cycle. -/
theorem fireISR_waiting (e : Env) (n : Nat) (s : State)
    (hwait : ∀ i, i < n →
      add32 (fireISR e i s).ctrl.g_ulPWMPeriodCount 1 ≤ e.UI_PARAM_PWM_UPDATE) :
    (fireISR e n s).ev.syncUpdates = s.ev.syncUpdates ∧
    (fireISR e n s).ctrl.flagNewDutyCycle = s.ctrl.flagNewDutyCycle ∧
    (∀ ph, dutyOf (fireISR e n s) ph = dutyOf s ph) ∧
    (fireISR e n s).ctrl.g_ulPWMClock = s.ctrl.g_ulPWMClock ∧
    (fireISR e n s).ctrl.g_ulMinPulseWidth = s.ctrl.g_ulMinPulseWidth := by
  induction n generalizing s with
  | zero => exact ⟨rfl, rfl, fun _ => rfl, rfl, rfl⟩
  | succ n ih =>
    have h0 : add32 s.ctrl.g_ulPWMPeriodCount 1 ≤ e.UI_PARAM_PWM_UPDATE :=
      hwait 0 (Nat.succ_pos n)
    obtain ⟨a1, a2, a3, a4, a5⟩ :=
      PWM0IntHandler_no_commit e s (fun h => absurd h.1 (Nat.not_lt.mpr h0))
    obtain ⟨b1, b2, b3, b4, b5⟩ :=
      ih (PWM0IntHandler e s) (fun i hi => hwait (i + 1) (Nat.succ_lt_succ hi))
    simp only [fireISR]
    exact ⟨b1.trans a1, b2.trans a2, fun ph => (b3 ph).trans (a3 ph), b4.trans a4,
      b5.trans a5⟩

/-- Claim C4: after a non-empty sequence of `PWMSetDutyCycle` calls, whose
last call has the arguments `(a, b, c)`, let the handler fire `n` times with
an incremented period count that does not exceed `UI_PARAM_PWM_UPDATE` and
then once with one that does.  The `n` waiting firings commit nothing; the
next firing performs exactly one synchronous update, the three phase widths
are those of `a`, `b`, `c` alone, and the duty cycle flag is cleared; one more
firing performs no update. -/
theorem C4_one_commit_of_last_duty_cycle (e : Env) (s : State)
    (calls : List (Nat × Nat × Nat)) (a b c n : Nat)
    (hwait : ∀ i, i < n →
      add32 (fireISR e i (setDutyCycles e (calls ++ [(a, b, c)]) s)).ctrl.g_ulPWMPeriodCount 1
        ≤ e.UI_PARAM_PWM_UPDATE)
    (hfire :
      add32 (fireISR e n (setDutyCycles e (calls ++ [(a, b, c)]) s)).ctrl.g_ulPWMPeriodCount 1
        > e.UI_PARAM_PWM_UPDATE) :
    (fireISR e n (setDutyCycles e (calls ++ [(a, b, c)]) s)).ev.syncUpdates
      = s.ev.syncUpdates ∧
    (fireISR e (n + 1) (setDutyCycles e (calls ++ [(a, b, c)]) s)).ev.syncUpdates
      = s.ev.syncUpdates + 1 ∧
    (∀ ph, phaseWidth (fireISR e (n + 1) (setDutyCycles e (calls ++ [(a, b, c)]) s)) ph
      = dutyToWidth (argOf a b c ph) s.ctrl.g_ulPWMClock s.ctrl.g_ulMinPulseWidth) ∧
    (fireISR e (n + 1) (setDutyCycles e (calls ++ [(a, b, c)]) s)).ctrl.flagNewDutyCycle
      = false ∧
    (fireISR e (n + 2) (setDutyCycles e (calls ++ [(a, b, c)]) s)).ev.syncUpdates
      = s.ev.syncUpdates + 1 := by
  have hstep : ∀ (k : Nat) (t : State), fireISR e (k + 1) t = PWM0IntHandler e (fireISR e k t) := by
    intro k
    induction k with
    | zero => intro t; rfl
    | succ k ih => intro t; exact ih (PWM0IntHandler e t)
  generalize hs1 : setDutyCycles e (calls ++ [(a, b, c)]) s = s1 at hwait hfire ⊢
  have hs1c : s1.ctrl.flagNewDutyCycle = true ∧ (∀ ph, dutyOf s1 ph = argOf a b c ph) ∧
      s1.ctrl.g_ulPWMClock = s.ctrl.g_ulPWMClock ∧
      s1.ctrl.g_ulMinPulseWidth = s.ctrl.g_ulMinPulseWidth ∧
      s1.ev.syncUpdates = s.ev.syncUpdates := by
    obtain ⟨f1, f2, _, f4⟩ := setDutyCycles_frame e calls s
    obtain ⟨hc, hs⟩ := PWMSetDutyCycle_ctrl e a b c (setDutyCycles e calls s)
    rw [← hs1, setDutyCycles_append]
    refine ⟨by rw [hc], ?_, by rw [hc]; exact f1, by rw [hc]; exact f2, by rw [hs]; exact f4⟩
    intro ph
    cases ph <;> simp only [dutyOf, argOf, hc]
  obtain ⟨c1, c2, c3, c4, c5⟩ := hs1c
  obtain ⟨w1, w2, w3, w4, w5⟩ := fireISR_waiting e n s1 hwait
  obtain ⟨k1, k2, k3⟩ := PWM0IntHandler_commit e (fireISR e n s1) hfire (w2.trans c1)
  have hno := PWM0IntHandler_no_commit e (fireISR e (n + 1) s1)
    (fun h => by rw [hstep n s1, k2] at h; exact Bool.false_ne_true h.2)
  refine ⟨w1.trans c5, ?_, ?_, ?_, ?_⟩
  · rw [hstep n s1, k1, w1, c5]
  · intro ph
    rw [hstep n s1, k3 ph, w3 ph, c2 ph, w4, c3, w5, c4]
  · rw [hstep n s1, k2]
  · rw [hstep (n + 1) s1, hno.1, hstep n s1, k1, w1, c5]

/-- Claim C4 for two calls, one waiting firing and the committing firing. -/
theorem C4_one_commit_of_last_duty_cycle_witness :
    (fireISR boardEnv 1 (setDutyCycles boardEnv ([(1, 2, 3)] ++ [(32768, 0, 65535)])
      state1000)).ev.syncUpdates = state1000.ev.syncUpdates ∧
    (fireISR boardEnv (1 + 1) (setDutyCycles boardEnv ([(1, 2, 3)] ++ [(32768, 0, 65535)])
      state1000)).ev.syncUpdates = state1000.ev.syncUpdates + 1 ∧
    (∀ ph, phaseWidth (fireISR boardEnv (1 + 1)
        (setDutyCycles boardEnv ([(1, 2, 3)] ++ [(32768, 0, 65535)]) state1000)) ph
      = dutyToWidth (argOf 32768 0 65535 ph) state1000.ctrl.g_ulPWMClock
          state1000.ctrl.g_ulMinPulseWidth) ∧
    (fireISR boardEnv (1 + 1) (setDutyCycles boardEnv ([(1, 2, 3)] ++ [(32768, 0, 65535)])
      state1000)).ctrl.flagNewDutyCycle = false ∧
    (fireISR boardEnv (1 + 2) (setDutyCycles boardEnv ([(1, 2, 3)] ++ [(32768, 0, 65535)])
      state1000)).ev.syncUpdates = state1000.ev.syncUpdates + 1 :=
  C4_one_commit_of_last_duty_cycle boardEnv state1000 [(1, 2, 3)] 32768 0 65535 1
    (by decide) (by decide)

/-! ## The minimum pulse width -/

/-- The rounded-up integer division of the source is the ceiling of the
quotient. -/
theorem ceilDivSpec_eq (x w : Nat) (hw : 0 < w) : ceilDivSpec x w = (x + (w - 1)) / w := by
  unfold ceilDivSpec
  apply eq_of_forall_ge_iff
  intro n
  have hw' : (0 : ℚ) < (w : ℚ) := by exact_mod_cast hw
  rw [Nat.ceil_le, div_le_iff₀ hw', Nat.div_le_iff_le_mul_add_pred hw]
  constructor
  · intro h
    have h' : x ≤ n * w := by exact_mod_cast h
    have h'' : w * n = n * w := Nat.mul_comm w n
    omega
  · intro h
    have h'' : w * n = n * w := Nat.mul_comm w n
    have h' : x ≤ n * w := by omega
    exact_mod_cast h'

/-- The value that `PWMSetMinPulseWidth` stores when the sum in its
numerator does not overflow. -/
theorem PWMSetMinPulseWidth_value (e : Env) (s : State)
    (hW : 1 ≤ e.PWM_CLOCK_WIDTH)
    (hb : (e.UI_PARAM_PWM_DEAD_TIME + 1) * 20 + e.UI_PARAM_PWM_MIN_PULSE * 100
            + e.PWM_CLOCK_WIDTH - 1 < 4294967296) :
    (PWMSetMinPulseWidth e s).ctrl.g_ulMinPulseWidth =
      ((e.UI_PARAM_PWM_DEAD_TIME + 1) * 20 + e.UI_PARAM_PWM_MIN_PULSE * 100
          + (e.PWM_CLOCK_WIDTH - 1)) / e.PWM_CLOCK_WIDTH
        + (if e.UI_PARAM_PWM_MIN_PULSE = 0 then 1 else 0) := by
  have h1 : add32 e.UI_PARAM_PWM_DEAD_TIME 1 = e.UI_PARAM_PWM_DEAD_TIME + 1 :=
    add32_of_lt (by omega)
  have h2 : mul32 (e.UI_PARAM_PWM_DEAD_TIME + 1) 20 = (e.UI_PARAM_PWM_DEAD_TIME + 1) * 20 :=
    mul32_of_lt (by omega)
  have h3 : mul32 e.UI_PARAM_PWM_MIN_PULSE 100 = e.UI_PARAM_PWM_MIN_PULSE * 100 :=
    mul32_of_lt (by omega)
  have h4 : sub32 e.PWM_CLOCK_WIDTH 1 = e.PWM_CLOCK_WIDTH - 1 :=
    sub32_of_le hW (by omega)
  have h5 : add32 ((e.UI_PARAM_PWM_DEAD_TIME + 1) * 20) (e.UI_PARAM_PWM_MIN_PULSE * 100)
      = (e.UI_PARAM_PWM_DEAD_TIME + 1) * 20 + e.UI_PARAM_PWM_MIN_PULSE * 100 :=
    add32_of_lt (by omega)
  have h6 : add32 ((e.UI_PARAM_PWM_DEAD_TIME + 1) * 20 + e.UI_PARAM_PWM_MIN_PULSE * 100)
      (e.PWM_CLOCK_WIDTH - 1)
      = (e.UI_PARAM_PWM_DEAD_TIME + 1) * 20 + e.UI_PARAM_PWM_MIN_PULSE * 100
          + (e.PWM_CLOCK_WIDTH - 1) :=
    add32_of_lt (by omega)
  simp only [PWMSetMinPulseWidth, h1, h2, h3, h4, h5, h6]
  split_ifs with hM
  · -- the increment does not wrap around
    rw [hM] at hb ⊢
    apply add32_of_lt
    rcases Nat.lt_or_ge e.PWM_CLOCK_WIDTH 2 with hlt | hge
    · have hW1 : e.PWM_CLOCK_WIDTH = 1 := by omega
      rw [hW1, Nat.div_one]
      omega
    · have hle : ((e.UI_PARAM_PWM_DEAD_TIME + 1) * 20 + 0 * 100 + (e.PWM_CLOCK_WIDTH - 1))
            / e.PWM_CLOCK_WIDTH
          ≤ ((e.UI_PARAM_PWM_DEAD_TIME + 1) * 20 + 0 * 100 + (e.PWM_CLOCK_WIDTH - 1)) / 2 :=
        Nat.div_le_div_left hge (by decide)
      omega
  · rfl

/-- Claim C5, as the code has it: with dead time parameter 0 and minimum
pulse parameter 0, `PWMSetMinPulseWidth` stores the ceiling of `20 / W` plus
one, for every clock width `W ≥ 1` with `W + 19 < 2 ^ 32` (no overflow of the
numerator); this is at least 2, and exactly 2 from `W = 20` on.  It is neither
1 nor zero. -/
theorem C5_min_pulse_zero_parameters (e : Env) (s : State)
    (hD : e.UI_PARAM_PWM_DEAD_TIME = 0) (hM : e.UI_PARAM_PWM_MIN_PULSE = 0)
    (hW : 1 ≤ e.PWM_CLOCK_WIDTH) (hW32 : e.PWM_CLOCK_WIDTH + 19 < 4294967296) :
    (PWMSetMinPulseWidth e s).ctrl.g_ulMinPulseWidth = ceilDivSpec 20 e.PWM_CLOCK_WIDTH + 1 ∧
    2 ≤ (PWMSetMinPulseWidth e s).ctrl.g_ulMinPulseWidth ∧
    (20 ≤ e.PWM_CLOCK_WIDTH → (PWMSetMinPulseWidth e s).ctrl.g_ulMinPulseWidth = 2) := by
  have hv := PWMSetMinPulseWidth_value e s hW (by omega)
  rw [hD, hM] at hv
  simp only [Nat.zero_add, Nat.one_mul, Nat.zero_mul, Nat.add_zero, if_pos] at hv
  rw [hv, ceilDivSpec_eq 20 _ hW]
  have hpos : 1 ≤ (20 + (e.PWM_CLOCK_WIDTH - 1)) / e.PWM_CLOCK_WIDTH := by
    rw [Nat.le_div_iff_mul_le hW]
    omega
  refine ⟨rfl, by omega, ?_⟩
  intro h20
  have hlt : (20 + (e.PWM_CLOCK_WIDTH - 1)) / e.PWM_CLOCK_WIDTH < 2 := by
    rw [Nat.div_lt_iff_lt_mul hW]
    omega
  omega

/-- Claim C5, as the code has it, for the 20 ns clock of the board. -/
theorem C5_min_pulse_zero_parameters_witness :
    (PWMSetMinPulseWidth zeroPulseEnv state1000).ctrl.g_ulMinPulseWidth
      = ceilDivSpec 20 zeroPulseEnv.PWM_CLOCK_WIDTH + 1 ∧
    2 ≤ (PWMSetMinPulseWidth zeroPulseEnv state1000).ctrl.g_ulMinPulseWidth ∧
    (20 ≤ zeroPulseEnv.PWM_CLOCK_WIDTH →
      (PWMSetMinPulseWidth zeroPulseEnv state1000).ctrl.g_ulMinPulseWidth = 2) :=
  C5_min_pulse_zero_parameters zeroPulseEnv state1000 rfl rfl (by decide) (by decide)

/-- Claim C5 as stated fails: with both parameters zero and a clock width of
20 the stored minimum pulse width is 2, not 1. -/
theorem C5_min_pulse_is_not_one :
    zeroPulseEnv.UI_PARAM_PWM_DEAD_TIME = 0 ∧ zeroPulseEnv.UI_PARAM_PWM_MIN_PULSE = 0 ∧
    (PWMSetMinPulseWidth zeroPulseEnv state1000).ctrl.g_ulMinPulseWidth = 2 ∧
    (PWMSetMinPulseWidth zeroPulseEnv state1000).ctrl.g_ulMinPulseWidth ≠ 1 := by
  decide

/-- Claim C6: for dead time `D`, minimum pulse parameter `M` and clock width
`W ≥ 1` with `(D + 1) * 20 + M * 100 + W - 1 < 2 ^ 32`, `PWMSetMinPulseWidth`
stores the ceiling of `((D + 1) * 20 + M * 100) / W` when `M ≠ 0` and that
value plus one when `M = 0`; the stored value is at least 1. -/
theorem C6_min_pulse_is_ceiling (e : Env) (s : State)
    (hW : 1 ≤ e.PWM_CLOCK_WIDTH)
    (hb : (e.UI_PARAM_PWM_DEAD_TIME + 1) * 20 + e.UI_PARAM_PWM_MIN_PULSE * 100
            + e.PWM_CLOCK_WIDTH - 1 < 4294967296) :
    (e.UI_PARAM_PWM_MIN_PULSE ≠ 0 →
      (PWMSetMinPulseWidth e s).ctrl.g_ulMinPulseWidth =
        ceilDivSpec ((e.UI_PARAM_PWM_DEAD_TIME + 1) * 20 + e.UI_PARAM_PWM_MIN_PULSE * 100)
          e.PWM_CLOCK_WIDTH) ∧
    (e.UI_PARAM_PWM_MIN_PULSE = 0 →
      (PWMSetMinPulseWidth e s).ctrl.g_ulMinPulseWidth =
        ceilDivSpec ((e.UI_PARAM_PWM_DEAD_TIME + 1) * 20 + e.UI_PARAM_PWM_MIN_PULSE * 100)
          e.PWM_CLOCK_WIDTH + 1) ∧
    1 ≤ (PWMSetMinPulseWidth e s).ctrl.g_ulMinPulseWidth := by
  have hv := PWMSetMinPulseWidth_value e s hW hb
  have hpos : 1 ≤ ((e.UI_PARAM_PWM_DEAD_TIME + 1) * 20 + e.UI_PARAM_PWM_MIN_PULSE * 100
      + (e.PWM_CLOCK_WIDTH - 1)) / e.PWM_CLOCK_WIDTH := by
    rw [Nat.le_div_iff_mul_le hW]
    omega
  rw [hv, ceilDivSpec_eq _ _ hW]
  refine ⟨fun hM => by rw [if_neg hM]; rfl, fun hM => by rw [if_pos hM], by omega⟩

/-- Claim C6 for the board: dead time 3 and minimum pulse 25 at a clock
width of 20 give a minimum pulse width of 129 clocks. -/
theorem C6_min_pulse_is_ceiling_witness :
    (boardEnv.UI_PARAM_PWM_MIN_PULSE ≠ 0 →
      (PWMSetMinPulseWidth boardEnv state1000).ctrl.g_ulMinPulseWidth =
        ceilDivSpec ((boardEnv.UI_PARAM_PWM_DEAD_TIME + 1) * 20
          + boardEnv.UI_PARAM_PWM_MIN_PULSE * 100) boardEnv.PWM_CLOCK_WIDTH) ∧
    (boardEnv.UI_PARAM_PWM_MIN_PULSE = 0 →
      (PWMSetMinPulseWidth boardEnv state1000).ctrl.g_ulMinPulseWidth =
        ceilDivSpec ((boardEnv.UI_PARAM_PWM_DEAD_TIME + 1) * 20
          + boardEnv.UI_PARAM_PWM_MIN_PULSE * 100) boardEnv.PWM_CLOCK_WIDTH + 1) ∧
    1 ≤ (PWMSetMinPulseWidth boardEnv state1000).ctrl.g_ulMinPulseWidth :=
  C6_min_pulse_is_ceiling boardEnv state1000 (by decide) (by decide)

/-! ## The conversion of a duty cycle to a pulse width -/

/-- Claim C7: for a duty fraction `f < 65536`, a period `P < 65536` and a
minimum pulse `m` with `2 * m ≤ P`, the phase width that `PWMUpdateDutyCycle`
computes is `min (max (f * P / 65536) m) (P - m)`; when
`m ≤ f * P / 65536 ≤ P - m` no clamp applies and the width is
`f * P / 65536`. -/
theorem C7_phase_width_is_clamped_scaling (e : Env) (s : State) (ph : Phase)
    (hf : dutyOf s ph < 65536)
    (hP : s.ctrl.g_ulPWMClock < 65536)
    (hm : 2 * s.ctrl.g_ulMinPulseWidth ≤ s.ctrl.g_ulPWMClock) :
    phaseWidth (PWMUpdateDutyCycle e s) ph =
      min (max (dutyOf s ph * s.ctrl.g_ulPWMClock / 65536) s.ctrl.g_ulMinPulseWidth)
        (s.ctrl.g_ulPWMClock - s.ctrl.g_ulMinPulseWidth) ∧
    (s.ctrl.g_ulMinPulseWidth ≤ dutyOf s ph * s.ctrl.g_ulPWMClock / 65536 →
      dutyOf s ph * s.ctrl.g_ulPWMClock / 65536
        ≤ s.ctrl.g_ulPWMClock - s.ctrl.g_ulMinPulseWidth →
      phaseWidth (PWMUpdateDutyCycle e s) ph
        = dutyOf s ph * s.ctrl.g_ulPWMClock / 65536) := by
  have hfP : dutyOf s ph * s.ctrl.g_ulPWMClock < 4294967296 :=
    Nat.mul_lt_mul'' hf hP
  rw [phaseWidth_PWMUpdateDutyCycle, dutyToWidth_eq_clamp _ _ _ (by omega) hm hfP]
  refine ⟨rfl, fun h1 h2 => ?_⟩
  rw [max_eq_left h1, min_eq_left h2]

/-- Claim C7 at period 1000, minimum pulse 50 and duty fraction 32768: the
width is 500. -/
theorem C7_phase_width_is_clamped_scaling_witness :
    phaseWidth (PWMUpdateDutyCycle boardEnv state1000) Phase.A
      = min (max (32768 * 1000 / 65536) 50) (1000 - 50) ∧
    phaseWidth (PWMUpdateDutyCycle boardEnv state1000) Phase.A = 500 :=
  ⟨(C7_phase_width_is_clamped_scaling boardEnv state1000 Phase.A
      (by decide) (by decide) (by decide)).1,
   (C7_phase_width_is_clamped_scaling boardEnv state1000 Phase.A
      (by decide) (by decide) (by decide)).2 (by decide) (by decide)⟩

/-- Claim C8: with `2 * m ≤ P`, a duty fraction of 0 is committed as the
width `m`; with moreover `1 ≤ P ≤ 65536` and `m ≥ 2`, a duty fraction of
65535 is committed as the width `P - m`. -/
theorem C8_extreme_fractions_clamp (e : Env) (s : State) (ph : Phase)
    (hP : s.ctrl.g_ulPWMClock < 4294967296)
    (hm : 2 * s.ctrl.g_ulMinPulseWidth ≤ s.ctrl.g_ulPWMClock) :
    (dutyOf s ph = 0 →
      phaseWidth (PWMUpdateDutyCycle e s) ph = s.ctrl.g_ulMinPulseWidth) ∧
    (dutyOf s ph = 65535 → 1 ≤ s.ctrl.g_ulPWMClock → s.ctrl.g_ulPWMClock ≤ 65536 →
      2 ≤ s.ctrl.g_ulMinPulseWidth →
      phaseWidth (PWMUpdateDutyCycle e s) ph
        = s.ctrl.g_ulPWMClock - s.ctrl.g_ulMinPulseWidth) := by
  rw [phaseWidth_PWMUpdateDutyCycle]
  constructor
  · intro h0
    rw [h0, dutyToWidth_eq_clamp _ _ _ hP hm (by omega)]
    simp only [Nat.zero_mul, Nat.zero_div]
    omega
  · intro h1 hP1 hP2 hm2
    rw [h1, dutyToWidth_eq_clamp _ _ _ hP hm (by omega)]
    omega

/-- Claim C8 at period 1000 and minimum pulse 50: fraction 0 gives 50 and
fraction 65535 gives 950. -/
theorem C8_extreme_fractions_clamp_witness :
    phaseWidth (PWMUpdateDutyCycle boardEnv state1000) Phase.B = 50 ∧
    phaseWidth (PWMUpdateDutyCycle boardEnv state1000) Phase.C = 950 :=
  ⟨(C8_extreme_fractions_clamp boardEnv state1000 Phase.B (by decide) (by decide)).1 rfl,
   (C8_extreme_fractions_clamp boardEnv state1000 Phase.C (by decide) (by decide)).2 rfl
      (by decide) (by decide) (by decide)⟩

/-- Claim C9, as the code has it: a duty value `f ≥ 65536` given to
`PWMSetDutyCycle` whose product with the period stays below `2 ^ 32` is
committed by the next eligible firing of the handler as the width `P - m`,
for every `P` and `m` with `1 ≤ m` and `2 * m ≤ P`. -/
theorem C9_out_of_range_duty_clamps_high (e : Env) (s : State) (a b c : Nat) (ph : Phase)
    (hf : 65536 ≤ argOf a b c ph)
    (hfP : argOf a b c ph * s.ctrl.g_ulPWMClock < 4294967296)
    (hm1 : 1 ≤ s.ctrl.g_ulMinPulseWidth)
    (hm : 2 * s.ctrl.g_ulMinPulseWidth ≤ s.ctrl.g_ulPWMClock)
    (hcnt : add32 s.ctrl.g_ulPWMPeriodCount 1 > e.UI_PARAM_PWM_UPDATE) :
    phaseWidth (PWM0IntHandler e (PWMSetDutyCycle e a b c s)) ph
      = s.ctrl.g_ulPWMClock - s.ctrl.g_ulMinPulseWidth := by
  obtain ⟨hc, _⟩ := PWMSetDutyCycle_ctrl e a b c s
  have hd : dutyOf (PWMSetDutyCycle e a b c s) ph = argOf a b c ph := by
    cases ph <;> simp only [dutyOf, argOf, hc]
  obtain ⟨_, _, k3⟩ := PWM0IntHandler_commit e (PWMSetDutyCycle e a b c s)
    (by rw [hc]; exact hcnt) (by rw [hc])
  rw [k3 ph, hd, hc]
  have hPf : s.ctrl.g_ulPWMClock * 65536 ≤ argOf a b c ph * s.ctrl.g_ulPWMClock := by
    rw [Nat.mul_comm]
    exact Nat.mul_le_mul_right _ hf
  rw [dutyToWidth_eq_clamp _ _ _ (by omega) hm hfP]
  have hraw : s.ctrl.g_ulPWMClock ≤ argOf a b c ph * s.ctrl.g_ulPWMClock / 65536 := by
    rw [Nat.le_div_iff_mul_le (by decide)]
    exact hPf
  show min (max (argOf a b c ph * s.ctrl.g_ulPWMClock / 65536) s.ctrl.g_ulMinPulseWidth)
      (s.ctrl.g_ulPWMClock - s.ctrl.g_ulMinPulseWidth)
    = s.ctrl.g_ulPWMClock - s.ctrl.g_ulMinPulseWidth
  omega

/-- Claim C9, as the code has it, for a duty value of 2.0 (131072) at period
1000 and minimum pulse 50: the width is 950. -/
theorem C9_out_of_range_duty_clamps_high_witness :
    phaseWidth (PWM0IntHandler boardEnv
      (PWMSetDutyCycle boardEnv 131072 0 0 (PWM0IntHandler boardEnv state1000))) Phase.A
      = 950 :=
  C9_out_of_range_duty_clamps_high boardEnv (PWM0IntHandler boardEnv state1000)
    131072 0 0 Phase.A (by decide) (by decide) (by decide) (by decide) (by decide)

/-- Claim C9 as stated fails: at period 1000 and minimum pulse 50 the 32-bit
duty value 4294968 makes the product with the period wrap around, and the
committed width is the lower bound 50 instead of 950. -/
theorem C9_large_duty_wraps_to_low :
    65536 ≤ 4294968 ∧ 4294968 < 4294967296 ∧
    1 ≤ state1000.ctrl.g_ulMinPulseWidth ∧
    2 * state1000.ctrl.g_ulMinPulseWidth ≤ state1000.ctrl.g_ulPWMClock ∧
    phaseWidth (fireISR boardEnv 2 (PWMSetDutyCycle boardEnv 4294968 0 0 state1000)) Phase.A
      = 50 ∧
    phaseWidth (fireISR boardEnv 2 (PWMSetDutyCycle boardEnv 4294968 0 0 state1000)) Phase.A
      ≠ state1000.ctrl.g_ulPWMClock - state1000.ctrl.g_ulMinPulseWidth := by
  decide

/-! ## The waveform update interrupt -/

/-- The update block of the handler changes neither the period count nor the
count of waveform interrupts. -/
theorem isrUpdate_counts (e : Env) (s : State) :
    (isrUpdate e s).ctrl.g_ulPWMPeriodCount = s.ctrl.g_ulPWMPeriodCount ∧
    (isrUpdate e s).ev.swWaveform = s.ev.swWaveform := by
  unfold isrUpdate
  simp only [PWMUpdateDutyCycle, PWMSyncUpdate, PWMGenPeriodSetAll]
  split_ifs <;> exact ⟨rfl, rfl⟩

/-- One firing of the handler in sine modulation: the period count is
incremented and never reduced, and the waveform interrupt is raised exactly
when the incremented count has reached `UI_PARAM_PWM_UPDATE + 1`. -/
theorem PWM0IntHandler_sine (e : Env) (s : State)
    (hsine : e.UI_PARAM_MODULATION = e.MODULATION_SINE) :
    (PWM0IntHandler e s).ctrl.g_ulPWMPeriodCount = add32 s.ctrl.g_ulPWMPeriodCount 1 ∧
    (PWM0IntHandler e s).ev.swWaveform = s.ev.swWaveform +
      (if add32 s.ctrl.g_ulPWMPeriodCount 1 ≥ add32 e.UI_PARAM_PWM_UPDATE 1 then 1 else 0) := by
  obtain ⟨u1, u2⟩ := isrUpdate_counts e (isrAcknowledge s)
  obtain ⟨oe, b, hp⟩ := isrPrecharge_frame (isrUpdate e (isrAcknowledge s))
  obtain ⟨ms, k, hm⟩ :=
    isrMillisecond_frame (isrWaveform e (isrPrecharge (isrUpdate e (isrAcknowledge s))))
  have hcnt : (isrPrecharge (isrUpdate e (isrAcknowledge s))).ctrl.g_ulPWMPeriodCount
      = add32 s.ctrl.g_ulPWMPeriodCount 1 := by
    rw [hp]; exact u1
  have hsw : (isrPrecharge (isrUpdate e (isrAcknowledge s))).ev.swWaveform
      = s.ev.swWaveform := by
    rw [hp]; exact u2
  unfold PWM0IntHandler
  rw [hm]
  simp only
  unfold isrWaveform
  rw [hcnt, if_pos hsine]
  split_ifs
  · exact ⟨hcnt, by rw [← hsw]⟩
  · exact ⟨hcnt, hsw⟩

/-- In sine modulation, from a period count `c`, `n` firings of the handler
raise the waveform interrupt once for every count in `c + 1, ..., c + n` that
exceeds `UI_PARAM_PWM_UPDATE`. -/
theorem fireISR_sine (e : Env) (hsine : e.UI_PARAM_MODULATION = e.MODULATION_SINE)
    (hU : e.UI_PARAM_PWM_UPDATE + 1 < 4294967296) (n : Nat) (s : State)
    (hn : s.ctrl.g_ulPWMPeriodCount + n < 4294967296) :
    (fireISR e n s).ctrl.g_ulPWMPeriodCount = s.ctrl.g_ulPWMPeriodCount + n ∧
    (fireISR e n s).ev.swWaveform = s.ev.swWaveform +
      ((s.ctrl.g_ulPWMPeriodCount + n - e.UI_PARAM_PWM_UPDATE)
        - (s.ctrl.g_ulPWMPeriodCount - e.UI_PARAM_PWM_UPDATE)) := by
  induction n generalizing s with
  | zero => exact ⟨rfl, by simp [fireISR]⟩
  | succ n ih =>
    obtain ⟨h1, h2⟩ := PWM0IntHandler_sine e s hsine
    rw [add32_of_lt (by omega)] at h1 h2
    rw [add32_of_lt hU] at h2
    obtain ⟨i1, i2⟩ := ih (PWM0IntHandler e s) (by rw [h1]; omega)
    simp only [fireISR]
    rw [i1, i2, h1, h2]
    constructor
    · omega
    · split_ifs <;> omega

/-- Claim C10, as the code has it: in sine modulation, from a period count
of 0 and with no other function called in between, `N` firings of the handler
raise the waveform interrupt `N - U` times when `N > U` and not at all
otherwise (`U = UI_PARAM_PWM_UPDATE`, `U + 1 < 2 ^ 32`, `N < 2 ^ 32`): the
handler does not reduce the period count, which is `N` afterwards, so the
interrupt is raised at every firing from firing `U + 1` on. -/
theorem C10_sine_waveform_interrupt_count (e : Env) (s : State) (N : Nat)
    (hsine : e.UI_PARAM_MODULATION = e.MODULATION_SINE)
    (h0 : s.ctrl.g_ulPWMPeriodCount = 0)
    (hU : e.UI_PARAM_PWM_UPDATE + 1 < 4294967296)
    (hN : N < 4294967296) :
    (fireISR e N s).ev.swWaveform = s.ev.swWaveform + (N - e.UI_PARAM_PWM_UPDATE) ∧
    (fireISR e N s).ctrl.g_ulPWMPeriodCount = N := by
  obtain ⟨h1, h2⟩ := fireISR_sine e hsine hU N s (by omega)
  rw [h0] at h1 h2
  exact ⟨by rw [h2]; omega, by rw [h1]; omega⟩

/-- Claim C10, as the code has it, for an update count of 1 and 5 firings:
the waveform interrupt is raised 4 times. -/
theorem C10_sine_waveform_interrupt_count_witness :
    (fireISR boardEnv 5 state1000).ev.swWaveform
      = state1000.ev.swWaveform + (5 - boardEnv.UI_PARAM_PWM_UPDATE) ∧
    (fireISR boardEnv 5 state1000).ctrl.g_ulPWMPeriodCount = 5 :=
  C10_sine_waveform_interrupt_count boardEnv state1000 5 rfl rfl (by decide) (by decide)

/-- Claim C10 as stated fails: in sine modulation with an update count of 1,
from a period count of 0 and no waveform interrupt raised so far, 3 firings of
the handler raise the waveform interrupt twice (at firings 2 and 3), while
`3 / (1 + 1)` is 1. -/
theorem C10_sine_waveform_interrupt_every_firing :
    boardEnv.UI_PARAM_MODULATION = boardEnv.MODULATION_SINE ∧
    boardEnv.UI_PARAM_PWM_UPDATE = 1 ∧
    state1000.ctrl.g_ulPWMPeriodCount = 0 ∧
    state1000.ev.swWaveform = 0 ∧
    (fireISR boardEnv 3 state1000).ev.swWaveform = 2 ∧
    (fireISR boardEnv 3 state1000).ev.swWaveform ≠ 3 / (boardEnv.UI_PARAM_PWM_UPDATE + 1) := by
  decide

/-! ## Frames of the handler blocks -/

/-- One more firing is the handler applied to the state after the firings so
far. -/
theorem fireISR_succ (e : Env) (k : Nat) (t : State) :
    fireISR e (k + 1) t = PWM0IntHandler e (fireISR e k t) := by
  induction k generalizing t with
  | zero => rfl
  | succ k ih => exact ih (PWM0IntHandler e t)

/-- The duty cycle commit changes at most the aggregate width and duty cycle,
the six pulse widths and the count of synchronous updates. -/
theorem PWMUpdateDutyCycle_frame (e : Env) (s : State) :
    ∃ w td w0 w1 w2 w3 w4 w5, PWMUpdateDutyCycle e s =
      { s with ctrl := { s.ctrl with g_ulPWMWidth := w, g_ulTrapDutyCycle := td },
               hw := { s.hw with width0 := w0, width1 := w1, width2 := w2, width3 := w3,
                                 width4 := w4, width5 := w5 },
               ev := { s.ev with syncUpdates := s.ev.syncUpdates + 1 } } := by
  unfold PWMUpdateDutyCycle
  simp only [PWMSyncUpdate]
  split_ifs
  · exact ⟨_, _, _, _, _, _, _, _, rfl⟩
  · exact ⟨_, _, _, _, _, _, _, _, rfl⟩

/-- The update block of the handler changes at most the aggregate width and
duty cycle, the two flags it clears, the periods, the pulse widths and the
count of synchronous updates. -/
theorem isrUpdate_frame (e : Env) (s : State) :
    ∃ w td ff fd p0 p1 p2 w0 w1 w2 w3 w4 w5 n, isrUpdate e s =
      { s with ctrl := { s.ctrl with g_ulPWMWidth := w, g_ulTrapDutyCycle := td,
                                     flagNewFrequency := ff, flagNewDutyCycle := fd },
               hw := { s.hw with period0 := p0, period1 := p1, period2 := p2,
                                 width0 := w0, width1 := w1, width2 := w2, width3 := w3,
                                 width4 := w4, width5 := w5 },
               ev := { s.ev with syncUpdates := n } } := by
  unfold isrUpdate
  split_ifs
  · obtain ⟨w, td, w0, w1, w2, w3, w4, w5, h⟩ := PWMUpdateDutyCycle_frame e
      { PWMGenPeriodSetAll s.ctrl.g_ulPWMClock s with
        ctrl := { (PWMGenPeriodSetAll s.ctrl.g_ulPWMClock s).ctrl with
                  flagNewFrequency := false } }
    simp only [h]
    exact ⟨_, _, _, _, _, _, _, _, _, _, _, _, _, _, rfl⟩
  · obtain ⟨w, td, w0, w1, w2, w3, w4, w5, h⟩ := PWMUpdateDutyCycle_frame e s
    simp only [h]
    exact ⟨_, _, _, _, _, _, _, _, _, _, _, _, _, _, rfl⟩
  · exact ⟨_, _, _, _, _, _, _, _, _, _, _, _, _, _, rfl⟩

/-- The four first blocks of the handler change at most the values listed
here; in particular they keep the frequency, the millisecond counter and the
count of millisecond interrupts. -/
theorem isrHead_frame (e : Env) (s : State) :
    ∃ w td ff fd fp cnt p0 p1 p2 w0 w1 w2 w3 w4 w5 oe ie n k c,
      isrWaveform e (isrPrecharge (isrUpdate e (isrAcknowledge s))) =
      { s with ctrl := { s.ctrl with g_ulPWMWidth := w, g_ulTrapDutyCycle := td,
                                     flagNewFrequency := ff, flagNewDutyCycle := fd,
                                     flagNewPrecharge := fp, g_ulPWMPeriodCount := cnt },
               hw := { s.hw with period0 := p0, period1 := p1, period2 := p2,
                                 width0 := w0, width1 := w1, width2 := w2, width3 := w3,
                                 width4 := w4, width5 := w5, outEnable := oe, intPWM0 := ie },
               ev := { s.ev with syncUpdates := n, swWaveform := k, intClears := c } } := by
  obtain ⟨w, td, ff, fd, p0, p1, p2, w0, w1, w2, w3, w4, w5, n, h1⟩ :=
    isrUpdate_frame e (isrAcknowledge s)
  obtain ⟨oe, b, h2⟩ := isrPrecharge_frame (isrUpdate e (isrAcknowledge s))
  obtain ⟨cnt, ie, k, h3⟩ := isrWaveform_frame e (isrPrecharge (isrUpdate e (isrAcknowledge s)))
  rw [h3, h2, h1]
  exact ⟨_, _, _, _, _, _, _, _, _, _, _, _, _, _, _, _, _, _, _, _, rfl⟩

/-! ## The millisecond interrupt -/

/-- One firing of the handler on the millisecond counter: 1000 is added, and
when the sum has reached the frequency the millisecond interrupt is raised
and the frequency subtracted. -/
theorem PWM0IntHandler_millisecond (e : Env) (s : State) :
    (PWM0IntHandler e s).ctrl.g_ulPWMFrequency = s.ctrl.g_ulPWMFrequency ∧
    (PWM0IntHandler e s).ctrl.g_ulPWMMillisecondCount =
      (if add32 s.ctrl.g_ulPWMMillisecondCount 1000 ≥ s.ctrl.g_ulPWMFrequency then
         sub32 (add32 s.ctrl.g_ulPWMMillisecondCount 1000) s.ctrl.g_ulPWMFrequency
       else add32 s.ctrl.g_ulPWMMillisecondCount 1000) ∧
    (PWM0IntHandler e s).ev.swMillisecond = s.ev.swMillisecond +
      (if add32 s.ctrl.g_ulPWMMillisecondCount 1000 ≥ s.ctrl.g_ulPWMFrequency then 1 else 0) := by
  obtain ⟨w, td, ff, fd, fp, cnt, p0, p1, p2, w0, w1, w2, w3, w4, w5, oe, ie, n, k, c, h⟩ :=
    isrHead_frame e s
  unfold PWM0IntHandler
  rw [h]
  unfold isrMillisecond
  simp only
  split_ifs
  · exact ⟨rfl, rfl, rfl⟩
  · exact ⟨rfl, rfl, rfl⟩

/-- With a frequency `F` of at least 1000 and `F + 1000 ≤ 2 ^ 32`, from a
millisecond counter `a < F`, `n` firings of the handler raise the millisecond
interrupt `(a + 1000 * n) / F` times and leave the counter at
`(a + 1000 * n) % F`. -/
theorem fireISR_millisecond (e : Env) (n : Nat) (s : State)
    (hF : 1000 ≤ s.ctrl.g_ulPWMFrequency)
    (hF32 : s.ctrl.g_ulPWMFrequency + 1000 ≤ 4294967296)
    (ha : s.ctrl.g_ulPWMMillisecondCount < s.ctrl.g_ulPWMFrequency) :
    (fireISR e n s).ctrl.g_ulPWMFrequency = s.ctrl.g_ulPWMFrequency ∧
    (fireISR e n s).ctrl.g_ulPWMMillisecondCount =
      (s.ctrl.g_ulPWMMillisecondCount + 1000 * n) % s.ctrl.g_ulPWMFrequency ∧
    (fireISR e n s).ev.swMillisecond = s.ev.swMillisecond +
      (s.ctrl.g_ulPWMMillisecondCount + 1000 * n) / s.ctrl.g_ulPWMFrequency := by
  induction n generalizing s with
  | zero =>
    refine ⟨rfl, ?_, ?_⟩
    · simp only [fireISR, Nat.mul_zero, Nat.add_zero]
      exact (Nat.mod_eq_of_lt ha).symm
    · simp only [fireISR, Nat.mul_zero, Nat.add_zero]
      rw [Nat.div_eq_of_lt ha, Nat.add_zero]
  | succ n ih =>
    obtain ⟨h1, h2, h3⟩ := PWM0IntHandler_millisecond e s
    rw [add32_of_lt (by omega)] at h2 h3
    have hpos : 0 < s.ctrl.g_ulPWMFrequency := by omega
    by_cases hfire : s.ctrl.g_ulPWMMillisecondCount + 1000 ≥ s.ctrl.g_ulPWMFrequency
    · rw [if_pos hfire, sub32_of_le hfire (by omega)] at h2
      rw [if_pos hfire] at h3
      obtain ⟨i1, i2, i3⟩ := ih (PWM0IntHandler e s) (by rw [h1]; exact hF)
        (by rw [h1]; exact hF32) (by rw [h1, h2]; omega)
      simp only [fireISR]
      rw [i1, i2, i3, h1, h2, h3]
      have hsum : s.ctrl.g_ulPWMMillisecondCount + 1000 * (n + 1)
          = (s.ctrl.g_ulPWMMillisecondCount + 1000 - s.ctrl.g_ulPWMFrequency + 1000 * n)
            + s.ctrl.g_ulPWMFrequency := by omega
      rw [hsum, Nat.add_mod_right, Nat.add_div_right _ hpos]
      exact ⟨rfl, rfl, by omega⟩
    · rw [if_neg hfire] at h2 h3
      obtain ⟨i1, i2, i3⟩ := ih (PWM0IntHandler e s) (by rw [h1]; exact hF)
        (by rw [h1]; exact hF32) (by rw [h1, h2]; omega)
      simp only [fireISR]
      rw [i1, i2, i3, h1, h2, h3]
      have hsum : s.ctrl.g_ulPWMMillisecondCount + 1000 * (n + 1)
          = s.ctrl.g_ulPWMMillisecondCount + 1000 + 1000 * n := by omega
      rw [hsum]
      exact ⟨rfl, rfl, rfl⟩

/-- Every frequency that the `switch` of `PWMSetFrequency` can store is at
least 1000 and leaves room for the addition of 1000 in 32 bits. -/
theorem freqOf_bounds (sel : FreqSel) :
    1000 ≤ freqOf sel ∧ freqOf sel + 1000 ≤ 4294967296 := by
  cases sel <;> decide

/-- The frequency that `PWMSetFrequency` stores. -/
theorem PWMSetFrequency_frequency (e : Env) (s : State) :
    (PWMSetFrequency e s).ctrl.g_ulPWMFrequency = freqOf e.UI_PARAM_PWM_FREQUENCY := by
  unfold PWMSetFrequency
  cases e.mainIsRunning <;> rfl

/-- From every state that `PWMSetFrequency` returns, for every selector, with
the millisecond counter at 0: `N` firings of the handler raise the
millisecond interrupt `1000 * N / F` times and leave the counter at
`1000 * N % F`, where `F` is the stored frequency. -/
theorem fireISR_millisecond_stored (e0 e : Env) (s : State) (N : Nat)
    (h0 : (PWMSetFrequency e0 s).ctrl.g_ulPWMMillisecondCount = 0) :
    (fireISR e N (PWMSetFrequency e0 s)).ev.swMillisecond
      = (PWMSetFrequency e0 s).ev.swMillisecond
        + 1000 * N / freqOf e0.UI_PARAM_PWM_FREQUENCY ∧
    (fireISR e N (PWMSetFrequency e0 s)).ctrl.g_ulPWMMillisecondCount
      = 1000 * N % freqOf e0.UI_PARAM_PWM_FREQUENCY ∧
    (fireISR e N (PWMSetFrequency e0 s)).ctrl.g_ulPWMFrequency
      = freqOf e0.UI_PARAM_PWM_FREQUENCY := by
  have hf := PWMSetFrequency_frequency e0 s
  obtain ⟨b1, b2⟩ := freqOf_bounds e0.UI_PARAM_PWM_FREQUENCY
  obtain ⟨h1, h2, h3⟩ := fireISR_millisecond e N (PWMSetFrequency e0 s)
    (by rw [hf]; exact b1) (by rw [hf]; exact b2) (by rw [hf, h0]; omega)
  rw [h0, Nat.zero_add, hf] at h2 h3
  rw [hf] at h1
  exact ⟨h3, h2, h1⟩

/-- Claim C11: from a millisecond counter of 0 and with a constant frequency
`F ≥ 1000`, `N` firings of the handler raise the millisecond interrupt
`1000 * N / F` times, leave the counter at `1000 * N % F` and do not change
the frequency.  The bound `F + 1000 ≤ 2 ^ 32` says that the sum of the 32-bit
counter and 1000 is representable; it holds for every frequency that
`PWMSetFrequency`, the only writer of `g_ulPWMFrequency`, can store (8000 to
80000). -/
theorem C11_millisecond_interrupt_count (e : Env) (s : State) (N : Nat)
    (h0 : s.ctrl.g_ulPWMMillisecondCount = 0)
    (hF : 1000 ≤ s.ctrl.g_ulPWMFrequency)
    (hF32 : s.ctrl.g_ulPWMFrequency + 1000 ≤ 4294967296) :
    (fireISR e N s).ev.swMillisecond
      = s.ev.swMillisecond + 1000 * N / s.ctrl.g_ulPWMFrequency ∧
    (fireISR e N s).ctrl.g_ulPWMMillisecondCount = 1000 * N % s.ctrl.g_ulPWMFrequency ∧
    (fireISR e N s).ctrl.g_ulPWMFrequency = s.ctrl.g_ulPWMFrequency := by
  obtain ⟨h1, h2, h3⟩ := fireISR_millisecond e N s hF hF32 (by omega)
  rw [h0, Nat.zero_add] at h2 h3
  exact ⟨h3, h2, h1⟩

/-- Claim C11 at 20 kHz and at 8 kHz: the millisecond interrupt is raised
once in 20 firings, not yet in 19, and once in 8 firings, not yet in 7. -/
theorem C11_millisecond_interrupt_count_witness :
    (fireISR boardEnv 19 state1000).ev.swMillisecond = 0 ∧
    (fireISR boardEnv 20 state1000).ev.swMillisecond = 1 ∧
    (fireISR boardEnv 20 state1000).ctrl.g_ulPWMMillisecondCount = 0 ∧
    (fireISR env8k 7 (PWMSetFrequency env8k state1000)).ev.swMillisecond = 0 ∧
    (fireISR env8k 8 (PWMSetFrequency env8k state1000)).ev.swMillisecond = 1 :=
  ⟨(C11_millisecond_interrupt_count boardEnv state1000 19 rfl (by decide) (by decide)).1,
   (C11_millisecond_interrupt_count boardEnv state1000 20 rfl (by decide) (by decide)).1,
   (C11_millisecond_interrupt_count boardEnv state1000 20 rfl (by decide) (by decide)).2.1,
   (C11_millisecond_interrupt_count env8k (PWMSetFrequency env8k state1000) 7 rfl
      (by decide) (by decide)).1,
   (C11_millisecond_interrupt_count env8k (PWMSetFrequency env8k state1000) 8 rfl
      (by decide) (by decide)).1⟩

/-! ## The precharge sequence -/

/-- The hardware and the variables after an unfaulted `PWMOutputPrecharge`,
written out field by field. -/
theorem PWMOutputPrecharge_unfaulted (e : Env) (s : State) (hunf : e.mainIsFaulted = false) :
    (PWMOutputPrecharge e s).hw =
      { s.hw with
        wdtLoad := e.WATCHDOG_RELOAD_VALUE,
        deadBand0 := none, deadBand1 := none, deadBand2 := none,
        outEnable := s.hw.outEnable &&& (4294967295 ^^^ PWM_OUT_ALL),
        period0 := s.ctrl.g_ulPWMClock, period1 := s.ctrl.g_ulPWMClock,
        period2 := s.ctrl.g_ulPWMClock,
        width0 := dutyToWidth 32767 s.ctrl.g_ulPWMClock
                    (PWMSetMinPulseWidth e s).ctrl.g_ulMinPulseWidth,
        width1 := dutyToWidth 32767 s.ctrl.g_ulPWMClock
                    (PWMSetMinPulseWidth e s).ctrl.g_ulMinPulseWidth,
        width2 := dutyToWidth 32767 s.ctrl.g_ulPWMClock
                    (PWMSetMinPulseWidth e s).ctrl.g_ulMinPulseWidth,
        width3 := dutyToWidth 32767 s.ctrl.g_ulPWMClock
                    (PWMSetMinPulseWidth e s).ctrl.g_ulMinPulseWidth,
        width4 := dutyToWidth 32767 s.ctrl.g_ulPWMClock
                    (PWMSetMinPulseWidth e s).ctrl.g_ulMinPulseWidth,
        width5 := dutyToWidth 32767 s.ctrl.g_ulPWMClock
                    (PWMSetMinPulseWidth e s).ctrl.g_ulMinPulseWidth } ∧
    (PWMOutputPrecharge e s).ctrl =
      { s.ctrl with
        g_ulMinPulseWidth := (PWMSetMinPulseWidth e s).ctrl.g_ulMinPulseWidth,
        g_ulPWMDutyCycleA := 32767, g_ulPWMDutyCycleB := 32767, g_ulPWMDutyCycleC := 32767,
        g_ulPWMWidth := dutyToWidth 32767 s.ctrl.g_ulPWMClock
                          (PWMSetMinPulseWidth e s).ctrl.g_ulMinPulseWidth,
        g_ulTrapDutyCycle :=
          mul32 (dutyToWidth 32767 s.ctrl.g_ulPWMClock
                  (PWMSetMinPulseWidth e s).ctrl.g_ulMinPulseWidth) 10000
            / s.ctrl.g_ulPWMClock,
        flagNewPrecharge := true } := by
  unfold PWMOutputPrecharge
  rw [if_neg (by rw [hunf]; exact Bool.false_ne_true)]
  exact ⟨rfl, rfl⟩

/-- One firing of the handler on the output enables: the low side outputs
are enabled when a precharge has been started, and the precharge flag is
clear afterwards. -/
theorem PWM0IntHandler_outEnable (e : Env) (s : State) :
    (PWM0IntHandler e s).hw.outEnable =
      (if s.ctrl.flagNewPrecharge = true then
         s.hw.outEnable ||| (PWM_OUT_1_BIT ||| PWM_OUT_3_BIT ||| PWM_OUT_5_BIT)
       else s.hw.outEnable) ∧
    (PWM0IntHandler e s).ctrl.flagNewPrecharge = false := by
  obtain ⟨w, td, ff, fd, p0, p1, p2, w0, w1, w2, w3, w4, w5, n, h1⟩ :=
    isrUpdate_frame e (isrAcknowledge s)
  obtain ⟨cnt, ie, k, h3⟩ := isrWaveform_frame e (isrPrecharge (isrUpdate e (isrAcknowledge s)))
  obtain ⟨ms, j, h4⟩ :=
    isrMillisecond_frame (isrWaveform e (isrPrecharge (isrUpdate e (isrAcknowledge s))))
  unfold PWM0IntHandler
  rw [h4, h3]
  simp only
  rw [h1]
  unfold isrPrecharge
  simp only [isrAcknowledge, PWMOutputState, if_true]
  split_ifs with hp
  · exact ⟨rfl, rfl⟩
  · exact ⟨rfl, by simpa using hp⟩

/-- With no precharge waiting, firings of the handler leave the output
enables alone. -/
theorem fireISR_outEnable (e : Env) (n : Nat) (s : State)
    (hp : s.ctrl.flagNewPrecharge = false) :
    (fireISR e n s).hw.outEnable = s.hw.outEnable ∧
    (fireISR e n s).ctrl.flagNewPrecharge = false := by
  induction n generalizing s with
  | zero => exact ⟨rfl, hp⟩
  | succ n ih =>
    obtain ⟨h1, h2⟩ := PWM0IntHandler_outEnable e s
    rw [hp, if_neg Bool.false_ne_true] at h1
    obtain ⟨i1, i2⟩ := ih (PWM0IntHandler e s) h2
    simp only [fireISR]
    exact ⟨i1.trans h1, i2⟩

/-- After the six output bits are cleared and the three low side bits set,
of the six outputs exactly outputs 1, 3 and 5 are enabled. -/
theorem testBit_low_side (x : Nat) :
    ((x &&& (4294967295 ^^^ PWM_OUT_ALL)) |||
        (PWM_OUT_1_BIT ||| PWM_OUT_3_BIT ||| PWM_OUT_5_BIT)).testBit 0 = false ∧
    ((x &&& (4294967295 ^^^ PWM_OUT_ALL)) |||
        (PWM_OUT_1_BIT ||| PWM_OUT_3_BIT ||| PWM_OUT_5_BIT)).testBit 1 = true ∧
    ((x &&& (4294967295 ^^^ PWM_OUT_ALL)) |||
        (PWM_OUT_1_BIT ||| PWM_OUT_3_BIT ||| PWM_OUT_5_BIT)).testBit 2 = false ∧
    ((x &&& (4294967295 ^^^ PWM_OUT_ALL)) |||
        (PWM_OUT_1_BIT ||| PWM_OUT_3_BIT ||| PWM_OUT_5_BIT)).testBit 3 = true ∧
    ((x &&& (4294967295 ^^^ PWM_OUT_ALL)) |||
        (PWM_OUT_1_BIT ||| PWM_OUT_3_BIT ||| PWM_OUT_5_BIT)).testBit 4 = false ∧
    ((x &&& (4294967295 ^^^ PWM_OUT_ALL)) |||
        (PWM_OUT_1_BIT ||| PWM_OUT_3_BIT ||| PWM_OUT_5_BIT)).testBit 5 = true := by
  simp only [Nat.testBit_or]
  rw [testBit_clear_outputs x 0 (by decide), testBit_clear_outputs x 1 (by decide),
    testBit_clear_outputs x 2 (by decide), testBit_clear_outputs x 3 (by decide),
    testBit_clear_outputs x 4 (by decide), testBit_clear_outputs x 5 (by decide)]
  decide

/-- Claim C12: an unfaulted `PWMOutputPrecharge` leaves the six outputs
disabled, the dead band disabled, the three periods at `g_ulPWMClock` and the
precharge flag set.  After the first firing of the handler that follows, and
after every later firing, outputs 1, 3 and 5 are enabled, outputs 0, 2 and 4
are disabled and the precharge flag is clear; the later firings leave the
output enable register as the first one left it. -/
theorem C12_precharge_enables_low_side_once (e e' : Env) (s : State) (n : Nat)
    (hunf : e.mainIsFaulted = false) :
    (outputEnabled (PWMOutputPrecharge e s) 0 = false ∧
     outputEnabled (PWMOutputPrecharge e s) 1 = false ∧
     outputEnabled (PWMOutputPrecharge e s) 2 = false ∧
     outputEnabled (PWMOutputPrecharge e s) 3 = false ∧
     outputEnabled (PWMOutputPrecharge e s) 4 = false ∧
     outputEnabled (PWMOutputPrecharge e s) 5 = false) ∧
    ((PWMOutputPrecharge e s).hw.deadBand0 = none ∧
     (PWMOutputPrecharge e s).hw.deadBand1 = none ∧
     (PWMOutputPrecharge e s).hw.deadBand2 = none) ∧
    ((PWMOutputPrecharge e s).hw.period0 = (PWMOutputPrecharge e s).ctrl.g_ulPWMClock ∧
     (PWMOutputPrecharge e s).hw.period1 = (PWMOutputPrecharge e s).ctrl.g_ulPWMClock ∧
     (PWMOutputPrecharge e s).hw.period2 = (PWMOutputPrecharge e s).ctrl.g_ulPWMClock) ∧
    (PWMOutputPrecharge e s).ctrl.flagNewPrecharge = true ∧
    (outputEnabled (fireISR e' (n + 1) (PWMOutputPrecharge e s)) 0 = false ∧
     outputEnabled (fireISR e' (n + 1) (PWMOutputPrecharge e s)) 1 = true ∧
     outputEnabled (fireISR e' (n + 1) (PWMOutputPrecharge e s)) 2 = false ∧
     outputEnabled (fireISR e' (n + 1) (PWMOutputPrecharge e s)) 3 = true ∧
     outputEnabled (fireISR e' (n + 1) (PWMOutputPrecharge e s)) 4 = false ∧
     outputEnabled (fireISR e' (n + 1) (PWMOutputPrecharge e s)) 5 = true) ∧
    (fireISR e' (n + 1) (PWMOutputPrecharge e s)).ctrl.flagNewPrecharge = false ∧
    (fireISR e' (n + 1) (PWMOutputPrecharge e s)).hw.outEnable
      = (PWM0IntHandler e' (PWMOutputPrecharge e s)).hw.outEnable := by
  obtain ⟨hhw, hctrl⟩ := PWMOutputPrecharge_unfaulted e s hunf
  obtain ⟨f1, f2⟩ := PWM0IntHandler_outEnable e' (PWMOutputPrecharge e s)
  obtain ⟨g1, g2⟩ := fireISR_outEnable e' n (PWM0IntHandler e' (PWMOutputPrecharge e s)) f2
  have hflag : (PWMOutputPrecharge e s).ctrl.flagNewPrecharge = true := by rw [hctrl]
  have hoe : (PWMOutputPrecharge e s).hw.outEnable
      = s.hw.outEnable &&& (4294967295 ^^^ PWM_OUT_ALL) := by rw [hhw]
  rw [hflag, if_pos rfl, hoe] at f1
  have hlast : fireISR e' (n + 1) (PWMOutputPrecharge e s)
      = fireISR e' n (PWM0IntHandler e' (PWMOutputPrecharge e s)) := rfl
  refine ⟨?_, ?_, ?_, hflag, ?_, ?_, ?_⟩
  · simp only [outputEnabled, hoe]
    exact ⟨testBit_clear_outputs _ 0 (by decide), testBit_clear_outputs _ 1 (by decide),
      testBit_clear_outputs _ 2 (by decide), testBit_clear_outputs _ 3 (by decide),
      testBit_clear_outputs _ 4 (by decide), testBit_clear_outputs _ 5 (by decide)⟩
  · rw [hhw]
    exact ⟨rfl, rfl, rfl⟩
  · rw [hhw, hctrl]
    exact ⟨rfl, rfl, rfl⟩
  · simp only [outputEnabled, hlast, g1, f1]
    exact testBit_low_side s.hw.outEnable
  · rw [hlast]
    exact g2
  · rw [hlast]
    exact g1

/-- Claim C12 from a running state with all six outputs enabled, for the
third firing after the call. -/
theorem C12_precharge_enables_low_side_once_witness :
    (PWMOutputPrecharge boardEnv state1000).hw.outEnable = 0 ∧
    (PWMOutputPrecharge boardEnv state1000).ctrl.flagNewPrecharge = true ∧
    (PWM0IntHandler boardEnv (PWMOutputPrecharge boardEnv state1000)).hw.outEnable = 42 ∧
    (fireISR boardEnv (2 + 1) (PWMOutputPrecharge boardEnv state1000)).hw.outEnable
      = (PWM0IntHandler boardEnv (PWMOutputPrecharge boardEnv state1000)).hw.outEnable :=
  ⟨by decide,
   (C12_precharge_enables_low_side_once boardEnv boardEnv state1000 2 rfl).2.2.2.1,
   by decide,
   (C12_precharge_enables_low_side_once boardEnv boardEnv state1000 2 rfl).2.2.2.2.2.2⟩

/-! ## Enabling the outputs -/

/-- The hardware and the variables after an unfaulted `PWMOutputOn`, written
out field by field. -/
theorem PWMOutputOn_unfaulted (e : Env) (s : State) (hunf : e.mainIsFaulted = false) :
    (PWMOutputOn e s).hw =
      { s.hw with
        wdtLoad := e.WATCHDOG_RELOAD_VALUE,
        deadBand0 := some (e.UI_PARAM_PWM_DEAD_TIME, e.UI_PARAM_PWM_DEAD_TIME),
        deadBand1 := some (e.UI_PARAM_PWM_DEAD_TIME, e.UI_PARAM_PWM_DEAD_TIME),
        deadBand2 := some (e.UI_PARAM_PWM_DEAD_TIME, e.UI_PARAM_PWM_DEAD_TIME),
        outEnable := s.hw.outEnable ||| PWM_OUT_ALL } ∧
    (PWMOutputOn e s).ctrl =
      { s.ctrl with
        g_ulMinPulseWidth := (PWMSetMinPulseWidth e s).ctrl.g_ulMinPulseWidth } ∧
    (PWMOutputOn e s).ev = { s.ev with wdtReloads := s.ev.wdtReloads + 1 } := by
  unfold PWMOutputOn
  rw [if_neg (by rw [hunf]; exact Bool.false_ne_true)]
  exact ⟨rfl, rfl, rfl⟩

/-- Setting the six output bits leaves each of the six outputs enabled. -/
theorem testBit_set_outputs (x i : Nat) (hi : i < 6) :
    (x ||| PWM_OUT_ALL).testBit i = true := by
  rw [Nat.testBit_or]
  have h : PWM_OUT_ALL.testBit i = true := by
    interval_cases i <;> decide
  rw [h, Bool.or_true]

/-- Claim C13: with the fault latch clear, `PWMOutputOn` enables the dead
band of the three generators with the configured dead time for both edges,
stores the recomputed minimum pulse width and leaves the six outputs enabled.
Of the hardware only the dead bands, the output enables and the watchdog load
change, of the variables only the minimum pulse width: the stored duty
cycles, the three flags, the periods, the pulse widths and the counters keep
their values. -/
theorem C13_output_on_effect (e : Env) (s : State) (hunf : e.mainIsFaulted = false) :
    ((PWMOutputOn e s).hw.deadBand0
        = some (e.UI_PARAM_PWM_DEAD_TIME, e.UI_PARAM_PWM_DEAD_TIME) ∧
     (PWMOutputOn e s).hw.deadBand1
        = some (e.UI_PARAM_PWM_DEAD_TIME, e.UI_PARAM_PWM_DEAD_TIME) ∧
     (PWMOutputOn e s).hw.deadBand2
        = some (e.UI_PARAM_PWM_DEAD_TIME, e.UI_PARAM_PWM_DEAD_TIME)) ∧
    (PWMOutputOn e s).ctrl.g_ulMinPulseWidth
      = (PWMSetMinPulseWidth e s).ctrl.g_ulMinPulseWidth ∧
    (outputEnabled (PWMOutputOn e s) 0 = true ∧
     outputEnabled (PWMOutputOn e s) 1 = true ∧
     outputEnabled (PWMOutputOn e s) 2 = true ∧
     outputEnabled (PWMOutputOn e s) 3 = true ∧
     outputEnabled (PWMOutputOn e s) 4 = true ∧
     outputEnabled (PWMOutputOn e s) 5 = true) ∧
    (PWMOutputOn e s).ctrl =
      { s.ctrl with g_ulMinPulseWidth := (PWMOutputOn e s).ctrl.g_ulMinPulseWidth } ∧
    (PWMOutputOn e s).hw =
      { s.hw with deadBand0 := (PWMOutputOn e s).hw.deadBand0,
                  deadBand1 := (PWMOutputOn e s).hw.deadBand1,
                  deadBand2 := (PWMOutputOn e s).hw.deadBand2,
                  outEnable := (PWMOutputOn e s).hw.outEnable,
                  wdtLoad := (PWMOutputOn e s).hw.wdtLoad } := by
  obtain ⟨hhw, hctrl, _⟩ := PWMOutputOn_unfaulted e s hunf
  refine ⟨?_, ?_, ?_, ?_, ?_⟩
  · rw [hhw]
    exact ⟨rfl, rfl, rfl⟩
  · rw [hctrl]
  · simp only [outputEnabled, hhw]
    exact ⟨testBit_set_outputs _ 0 (by decide), testBit_set_outputs _ 1 (by decide),
      testBit_set_outputs _ 2 (by decide), testBit_set_outputs _ 3 (by decide),
      testBit_set_outputs _ 4 (by decide), testBit_set_outputs _ 5 (by decide)⟩
  · rw [hctrl]
  · rw [hhw]

/-- Claim C13 after a precharge from the sample state: dead band 3 on every
generator, all six outputs enabled, the duty cycles of the precharge kept. -/
theorem C13_output_on_effect_witness :
    (PWMOutputOn boardEnv (PWMOutputPrecharge boardEnv state1000)).hw.deadBand0
      = some (3, 3) ∧
    (PWMOutputOn boardEnv (PWMOutputPrecharge boardEnv state1000)).hw.outEnable = 63 ∧
    (PWMOutputOn boardEnv (PWMOutputPrecharge boardEnv state1000)).ctrl =
      { (PWMOutputPrecharge boardEnv state1000).ctrl with
        g_ulMinPulseWidth :=
          (PWMOutputOn boardEnv (PWMOutputPrecharge boardEnv state1000)).ctrl.g_ulMinPulseWidth } :=
  ⟨(C13_output_on_effect boardEnv (PWMOutputPrecharge boardEnv state1000) rfl).1.1,
   by decide,
   (C13_output_on_effect boardEnv (PWMOutputPrecharge boardEnv state1000) rfl).2.2.2.1⟩

/-- The output enable register after an unfaulted `PWMOutputTrapezoid`. -/
theorem PWMOutputTrapezoid_unfaulted (e : Env) (ulEnable : Nat) (s : State)
    (hunf : e.mainIsFaulted = false) :
    (PWMOutputTrapezoid e ulEnable s).hw =
      { s.hw with
        wdtLoad := e.WATCHDOG_RELOAD_VALUE,
        outEnable := (s.hw.outEnable &&& (4294967295 ^^^ (ulEnable ^^^ PWM_OUT_ALL)))
                        ||| ulEnable,
        intADC0SS0 := true, intADC0SS3 := true } ∧
    (PWMOutputTrapezoid e ulEnable s).ctrl = s.ctrl := by
  unfold PWMOutputTrapezoid
  rw [if_neg (by rw [hunf]; exact Bool.false_ne_true)]
  exact ⟨rfl, rfl⟩

/-- Clearing the complement of a mask within the six output bits and then
setting the mask leaves, for each of the six outputs, the bit of the mask. -/
theorem testBit_trapezoid (x m i : Nat) (hi : i < 6) :
    ((x &&& (4294967295 ^^^ (m ^^^ PWM_OUT_ALL))) ||| m).testBit i = m.testBit i := by
  have h1 : (4294967295 : Nat).testBit i = true := by
    interval_cases i <;> decide
  have h2 : PWM_OUT_ALL.testBit i = true := by
    interval_cases i <;> decide
  rw [Nat.testBit_or, Nat.testBit_and, Nat.testBit_xor, Nat.testBit_xor, h1, h2]
  cases x.testBit i <;> cases m.testBit i <;> rfl

/-- Claim C14: for every prior state of the output enables and every mask
within the six output bits, an unfaulted `PWMOutputTrapezoid` leaves each of
the six outputs enabled exactly when its bit is in the mask, so that the six
output bits of the enable register equal the mask, and leaves the two ADC
interrupts enabled. -/
theorem C14_trapezoid_enable_set (e : Env) (ulEnable : Nat) (s : State)
    (hunf : e.mainIsFaulted = false) (hmask : ulEnable < 64) :
    (∀ i, i < 6 → outputEnabled (PWMOutputTrapezoid e ulEnable s) i = ulEnable.testBit i) ∧
    (PWMOutputTrapezoid e ulEnable s).hw.outEnable &&& PWM_OUT_ALL = ulEnable ∧
    (PWMOutputTrapezoid e ulEnable s).hw.intADC0SS0 = true ∧
    (PWMOutputTrapezoid e ulEnable s).hw.intADC0SS3 = true := by
  obtain ⟨hhw, _⟩ := PWMOutputTrapezoid_unfaulted e ulEnable s hunf
  have hoe : (PWMOutputTrapezoid e ulEnable s).hw.outEnable
      = (s.hw.outEnable &&& (4294967295 ^^^ (ulEnable ^^^ PWM_OUT_ALL))) ||| ulEnable := by
    rw [hhw]
  refine ⟨?_, ?_, by rw [hhw], by rw [hhw]⟩
  · intro i hi
    simp only [outputEnabled, hoe]
    exact testBit_trapezoid _ _ i hi
  · rw [hoe]
    apply Nat.eq_of_testBit_eq
    intro i
    rw [Nat.testBit_and]
    rcases Nat.lt_or_ge i 6 with hi | hi
    · have h2 : PWM_OUT_ALL.testBit i = true := by
        interval_cases i <;> decide
      rw [testBit_trapezoid _ _ i hi, h2, Bool.and_true]
    · have hpow : 64 ≤ 2 ^ i := by
        calc 64 = 2 ^ 6 := by norm_num
          _ ≤ 2 ^ i := Nat.pow_le_pow_right (by decide) hi
      have h2 : PWM_OUT_ALL.testBit i = false :=
        Nat.testBit_lt_two_pow (Nat.lt_of_lt_of_le (by decide) hpow)
      have h3 : ulEnable.testBit i = false :=
        Nat.testBit_lt_two_pow (Nat.lt_of_lt_of_le hmask hpow)
      rw [h2, h3, Bool.and_false]

/-- Claim C14 with all six outputs enabled before and the mask of outputs 0
and 3: the enable register holds the mask afterwards. -/
theorem C14_trapezoid_enable_set_witness :
    (PWMOutputTrapezoid boardEnv 9 state1000).hw.outEnable &&& PWM_OUT_ALL = 9 ∧
    (PWMOutputTrapezoid boardEnv 9 state1000).hw.intADC0SS0 = true ∧
    (PWMOutputTrapezoid boardEnv 9 state1000).hw.intADC0SS3 = true :=
  (C14_trapezoid_enable_set boardEnv 9 state1000 rfl (by decide)).2

/-! ## Idempotence of the transitions -/

/-- The variables and the hardware after `PWMUpdateDutyCycle`, written out
field by field. -/
theorem PWMUpdateDutyCycle_fields (e : Env) (s : State) :
    (PWMUpdateDutyCycle e s).ctrl =
      { s.ctrl with
        g_ulPWMWidth :=
          add32 (add32
            (dutyToWidth s.ctrl.g_ulPWMDutyCycleA s.ctrl.g_ulPWMClock s.ctrl.g_ulMinPulseWidth)
            (dutyToWidth s.ctrl.g_ulPWMDutyCycleB s.ctrl.g_ulPWMClock s.ctrl.g_ulMinPulseWidth))
            (dutyToWidth s.ctrl.g_ulPWMDutyCycleC s.ctrl.g_ulPWMClock s.ctrl.g_ulMinPulseWidth)
            / 3,
        g_ulTrapDutyCycle :=
          mul32 (add32 (add32
            (dutyToWidth s.ctrl.g_ulPWMDutyCycleA s.ctrl.g_ulPWMClock s.ctrl.g_ulMinPulseWidth)
            (dutyToWidth s.ctrl.g_ulPWMDutyCycleB s.ctrl.g_ulPWMClock s.ctrl.g_ulMinPulseWidth))
            (dutyToWidth s.ctrl.g_ulPWMDutyCycleC s.ctrl.g_ulPWMClock s.ctrl.g_ulMinPulseWidth)
            / 3) 10000 / s.ctrl.g_ulPWMClock } ∧
    (PWMUpdateDutyCycle e s).hw =
      { s.hw with
        width0 := dutyToWidth s.ctrl.g_ulPWMDutyCycleA s.ctrl.g_ulPWMClock
                    s.ctrl.g_ulMinPulseWidth,
        width1 :=
          if e.UI_PARAM_MODULATION ≠ e.MODULATION_SINE ∧ s.ctrl.g_ucDecayMode = e.DECAY_SLOW
          then sub32 s.ctrl.g_ulPWMClock e.UI_PARAM_PWM_DEAD_TIME
          else dutyToWidth s.ctrl.g_ulPWMDutyCycleA s.ctrl.g_ulPWMClock
                 s.ctrl.g_ulMinPulseWidth,
        width2 := dutyToWidth s.ctrl.g_ulPWMDutyCycleB s.ctrl.g_ulPWMClock
                    s.ctrl.g_ulMinPulseWidth,
        width3 :=
          if e.UI_PARAM_MODULATION ≠ e.MODULATION_SINE ∧ s.ctrl.g_ucDecayMode = e.DECAY_SLOW
          then sub32 s.ctrl.g_ulPWMClock e.UI_PARAM_PWM_DEAD_TIME
          else dutyToWidth s.ctrl.g_ulPWMDutyCycleB s.ctrl.g_ulPWMClock
                 s.ctrl.g_ulMinPulseWidth,
        width4 := dutyToWidth s.ctrl.g_ulPWMDutyCycleC s.ctrl.g_ulPWMClock
                    s.ctrl.g_ulMinPulseWidth,
        width5 :=
          if e.UI_PARAM_MODULATION ≠ e.MODULATION_SINE ∧ s.ctrl.g_ucDecayMode = e.DECAY_SLOW
          then sub32 s.ctrl.g_ulPWMClock e.UI_PARAM_PWM_DEAD_TIME
          else dutyToWidth s.ctrl.g_ulPWMDutyCycleC s.ctrl.g_ulPWMClock
                 s.ctrl.g_ulMinPulseWidth } := by
  unfold PWMUpdateDutyCycle
  simp only [PWMSyncUpdate]
  split_ifs
  · exact ⟨rfl, rfl⟩
  · exact ⟨rfl, rfl⟩

/-- The variables and the hardware before the commit at the end of
`PWMOutputOff`. -/
theorem PWMOutputOff_eq (e : Env) (s : State) :
    PWMOutputOff e s = PWMUpdateDutyCycle e
      { s with
        ctrl := { s.ctrl with
          g_ulPWMDutyCycleA := 32768, g_ulPWMDutyCycleB := 32768, g_ulPWMDutyCycleC := 32768,
          g_ulMinPulseWidth := (PWMSetMinPulseWidth e s).ctrl.g_ulMinPulseWidth },
        hw := { s.hw with
          outEnable := s.hw.outEnable &&& (4294967295 ^^^ PWM_OUT_ALL),
          period0 := e.PWM_CLOCK / 1000, period1 := e.PWM_CLOCK / 1000,
          period2 := e.PWM_CLOCK / 1000,
          deadBand0 := none, deadBand1 := none, deadBand2 := none } } := rfl

/-- Clearing the same bits twice is clearing them once. -/
theorem land_land_self (x a : Nat) : (x &&& a) &&& a = x &&& a := by
  rw [Nat.land_assoc, Nat.and_self]

/-- Setting the same bits twice is setting them once. -/
theorem lor_lor_self (x a : Nat) : (x ||| a) ||| a = x ||| a := by
  rw [Nat.lor_assoc, Nat.or_self]

/-- Clearing the bits outside a mask and setting the mask, done twice, is the
same as done once. -/
theorem land_lor_twice (x c m : Nat) : (((x &&& c) ||| m) &&& c) ||| m = (x &&& c) ||| m := by
  apply Nat.eq_of_testBit_eq
  intro i
  simp only [Nat.testBit_or, Nat.testBit_and]
  cases x.testBit i <;> cases c.testBit i <;> cases m.testBit i <;> rfl

/-- Claim C15: each of `PWMOutputOff`, `PWMOutputPrecharge`, `PWMOutputOn`
and `PWMOutputTrapezoid` with a fixed mask, called twice in a row with the
same configuration and the same fault latch, leaves the same variables and
the same hardware as called once. -/
theorem C15_transitions_idempotent (e : Env) (ulEnable : Nat) (s : State) :
    ((PWMOutputOff e (PWMOutputOff e s)).ctrl = (PWMOutputOff e s).ctrl ∧
     (PWMOutputOff e (PWMOutputOff e s)).hw = (PWMOutputOff e s).hw) ∧
    ((PWMOutputPrecharge e (PWMOutputPrecharge e s)).ctrl = (PWMOutputPrecharge e s).ctrl ∧
     (PWMOutputPrecharge e (PWMOutputPrecharge e s)).hw = (PWMOutputPrecharge e s).hw) ∧
    ((PWMOutputOn e (PWMOutputOn e s)).ctrl = (PWMOutputOn e s).ctrl ∧
     (PWMOutputOn e (PWMOutputOn e s)).hw = (PWMOutputOn e s).hw) ∧
    ((PWMOutputTrapezoid e ulEnable (PWMOutputTrapezoid e ulEnable s)).ctrl
        = (PWMOutputTrapezoid e ulEnable s).ctrl ∧
     (PWMOutputTrapezoid e ulEnable (PWMOutputTrapezoid e ulEnable s)).hw
        = (PWMOutputTrapezoid e ulEnable s).hw) := by
  refine ⟨?_, ?_, ?_, ?_⟩
  · obtain ⟨c1, h1⟩ := PWMUpdateDutyCycle_fields e
      { s with
        ctrl := { s.ctrl with
          g_ulPWMDutyCycleA := 32768, g_ulPWMDutyCycleB := 32768, g_ulPWMDutyCycleC := 32768,
          g_ulMinPulseWidth := (PWMSetMinPulseWidth e s).ctrl.g_ulMinPulseWidth },
        hw := { s.hw with
          outEnable := s.hw.outEnable &&& (4294967295 ^^^ PWM_OUT_ALL),
          period0 := e.PWM_CLOCK / 1000, period1 := e.PWM_CLOCK / 1000,
          period2 := e.PWM_CLOCK / 1000,
          deadBand0 := none, deadBand1 := none, deadBand2 := none } }
    rw [← PWMOutputOff_eq e s] at c1 h1
    obtain ⟨c2, h2⟩ := PWMUpdateDutyCycle_fields e
      { PWMOutputOff e s with
        ctrl := { (PWMOutputOff e s).ctrl with
          g_ulPWMDutyCycleA := 32768, g_ulPWMDutyCycleB := 32768, g_ulPWMDutyCycleC := 32768,
          g_ulMinPulseWidth :=
            (PWMSetMinPulseWidth e (PWMOutputOff e s)).ctrl.g_ulMinPulseWidth },
        hw := { (PWMOutputOff e s).hw with
          outEnable := (PWMOutputOff e s).hw.outEnable &&& (4294967295 ^^^ PWM_OUT_ALL),
          period0 := e.PWM_CLOCK / 1000, period1 := e.PWM_CLOCK / 1000,
          period2 := e.PWM_CLOCK / 1000,
          deadBand0 := none, deadBand1 := none, deadBand2 := none } }
    rw [← PWMOutputOff_eq e (PWMOutputOff e s)] at c2 h2
    constructor
    · rw [c2, c1]
      rfl
    · rw [h2, c1, h1]
      simp only [land_land_self]
      rfl
  · cases hf : e.mainIsFaulted with
    | true =>
      have h : PWMOutputPrecharge e = fun t => t := by
        funext t
        simp [PWMOutputPrecharge, hf]
      rw [h]
      exact ⟨rfl, rfl⟩
    | false =>
      obtain ⟨h1, c1⟩ := PWMOutputPrecharge_unfaulted e s hf
      obtain ⟨h2, c2⟩ := PWMOutputPrecharge_unfaulted e (PWMOutputPrecharge e s) hf
      constructor
      · rw [c2, c1]
        rfl
      · rw [h2, c1, h1]
        simp only [land_land_self]
        rfl
  · cases hf : e.mainIsFaulted with
    | true =>
      have h : PWMOutputOn e = fun t => t := by
        funext t
        simp [PWMOutputOn, hf]
      rw [h]
      exact ⟨rfl, rfl⟩
    | false =>
      obtain ⟨h1, c1, _⟩ := PWMOutputOn_unfaulted e s hf
      obtain ⟨h2, c2, _⟩ := PWMOutputOn_unfaulted e (PWMOutputOn e s) hf
      constructor
      · rw [c2, c1]
        rfl
      · rw [h2, h1]
        simp only [lor_lor_self]
  · cases hf : e.mainIsFaulted with
    | true =>
      have h : PWMOutputTrapezoid e ulEnable = fun t => t := by
        funext t
        simp [PWMOutputTrapezoid, hf]
      rw [h]
      exact ⟨rfl, rfl⟩
    | false =>
      obtain ⟨h1, c1⟩ := PWMOutputTrapezoid_unfaulted e ulEnable s hf
      obtain ⟨h2, c2⟩ := PWMOutputTrapezoid_unfaulted e ulEnable
        (PWMOutputTrapezoid e ulEnable s) hf
      constructor
      · rw [c2]
      · rw [h2, h1]
        simp only [land_lor_twice]

/-! ## The counters across the transitions -/

/-- Claim C16, as the code has it: `PWMOutputPrecharge` and `PWMOutputOn`
write neither `g_ulPWMPeriodCount` nor `g_ulPWMMillisecondCount`; faulted or
not, and from whatever mode, both counters have after the call the values
they had before it. -/
theorem C16_transitions_keep_counters (e : Env) (s : State) :
    (PWMOutputPrecharge e s).ctrl.g_ulPWMPeriodCount = s.ctrl.g_ulPWMPeriodCount ∧
    (PWMOutputPrecharge e s).ctrl.g_ulPWMMillisecondCount = s.ctrl.g_ulPWMMillisecondCount ∧
    (PWMOutputOn e s).ctrl.g_ulPWMPeriodCount = s.ctrl.g_ulPWMPeriodCount ∧
    (PWMOutputOn e s).ctrl.g_ulPWMMillisecondCount = s.ctrl.g_ulPWMMillisecondCount := by
  cases hf : e.mainIsFaulted with
  | true =>
    simp [PWMOutputPrecharge, PWMOutputOn, hf]
  | false =>
    obtain ⟨_, c1⟩ := PWMOutputPrecharge_unfaulted e s hf
    obtain ⟨_, c2, _⟩ := PWMOutputOn_unfaulted e s hf
    rw [c1, c2]
    exact ⟨rfl, rfl, rfl, rfl⟩

/-- Claim C16 as stated fails: after 5 firings of the handler and
`PWMOutputOff`, the period count is 5 and the millisecond counter 5000, and
an unfaulted `PWMOutputPrecharge` or `PWMOutputOn` called in this Off mode
leaves them at 5 and 5000, not at zero. -/
theorem C16_counters_not_reset :
    boardEnv.mainIsFaulted = false ∧
    (PWMOutputOff boardEnv (fireISR boardEnv 5 state1000)).hw.outEnable = 0 ∧
    (PWMOutputPrecharge boardEnv
      (PWMOutputOff boardEnv (fireISR boardEnv 5 state1000))).ctrl.g_ulPWMPeriodCount = 5 ∧
    (PWMOutputPrecharge boardEnv
      (PWMOutputOff boardEnv (fireISR boardEnv 5 state1000))).ctrl.g_ulPWMMillisecondCount
        = 5000 ∧
    (PWMOutputOn boardEnv
      (PWMOutputOff boardEnv (fireISR boardEnv 5 state1000))).ctrl.g_ulPWMPeriodCount = 5 ∧
    (PWMOutputOn boardEnv
      (PWMOutputOff boardEnv (fireISR boardEnv 5 state1000))).ctrl.g_ulPWMMillisecondCount
        = 5000 := by
  decide

/-- Claim C17: for a period count `c` and `n ≤ c`, after
`PWMReducePeriodCount n` the function `PWMGetPeriodCount` returns `c - n` and
the PWM interrupt is enabled; nothing else of the variables and the hardware
changes, and the call counts are the same.  `PWMGetPeriodCount` only reads
`g_ulPWMPeriodCount`. -/
theorem C17_reduce_period_count (n : Nat) (s : State)
    (hc : s.ctrl.g_ulPWMPeriodCount < 4294967296)
    (hn : n ≤ s.ctrl.g_ulPWMPeriodCount) :
    PWMGetPeriodCount (PWMReducePeriodCount n s) = s.ctrl.g_ulPWMPeriodCount - n ∧
    (PWMReducePeriodCount n s).hw.intPWM0 = true ∧
    PWMReducePeriodCount n s =
      { s with ctrl := { s.ctrl with g_ulPWMPeriodCount := s.ctrl.g_ulPWMPeriodCount - n },
               hw := { s.hw with intPWM0 := true } } ∧
    PWMGetPeriodCount s = s.ctrl.g_ulPWMPeriodCount := by
  have hsub : sub32 s.ctrl.g_ulPWMPeriodCount n = s.ctrl.g_ulPWMPeriodCount - n :=
    sub32_of_le hn hc
  refine ⟨?_, rfl, ?_, rfl⟩
  · simp only [PWMGetPeriodCount, PWMReducePeriodCount, IntSetPWM0]
    exact hsub
  · simp only [PWMReducePeriodCount, IntSetPWM0, hsub]

/-- Claim C17 after 5 firings of the handler: reducing the period count 5 by
2 gives 3. -/
theorem C17_reduce_period_count_witness :
    PWMGetPeriodCount (PWMReducePeriodCount 2 (fireISR boardEnv 5 state1000)) = 5 - 2 ∧
    (PWMReducePeriodCount 2 (fireISR boardEnv 5 state1000)).hw.intPWM0 = true :=
  ⟨(C17_reduce_period_count 2 (fireISR boardEnv 5 state1000) (by decide) (by decide)).1,
   (C17_reduce_period_count 2 (fireISR boardEnv 5 state1000) (by decide) (by decide)).2.1⟩

/-! ## The setters -/

/-- Claim C18, as the code has it: for every selector, `PWMSetFrequency`
stores the frequency and the period, leaves the PWM interrupt enabled, and
sets the new-frequency flag when the drive is running; when the drive is not
running the flag keeps the value it had before the call. -/
theorem C18_set_frequency_flag (e : Env) (s : State) :
    (PWMSetFrequency e s).ctrl.flagNewFrequency
      = (e.mainIsRunning || s.ctrl.flagNewFrequency) ∧
    (PWMSetFrequency e s).ctrl.g_ulPWMFrequency = freqOf e.UI_PARAM_PWM_FREQUENCY ∧
    (PWMSetFrequency e s).ctrl.g_ulPWMClock
      = e.PWM_CLOCK / freqOf e.UI_PARAM_PWM_FREQUENCY ∧
    (PWMSetFrequency e s).hw.intPWM0 = true := by
  unfold PWMSetFrequency
  cases hr : e.mainIsRunning <;> simp [IntSetPWM0]

/-- Claim C18 as stated fails: while the drive is not running and no new
frequency is waiting, `PWMSetFrequency` returns with the new-frequency flag
still clear, for the 20 kHz selector as for every other. -/
theorem C18_flag_clear_when_stopped :
    stoppedEnv.mainIsRunning = false ∧
    state1000.ctrl.flagNewFrequency = false ∧
    (PWMSetFrequency stoppedEnv state1000).ctrl.flagNewFrequency = false ∧
    (PWMSetFrequency stoppedEnv state1000).ctrl.g_ulPWMClock = 2500 := by
  decide

/-- Claim C19, as the code has it: `PWMSetDutyCycle a b c` stores `a`, `b`,
`c` and sets the new-duty-cycle flag; every other variable (the other two
flags, the period count, the millisecond counter, the aggregate width and duty
cycle, the period and the minimum pulse width) keeps its value.  Of the
hardware the periods, the pulse widths, the output enables and the dead bands
keep their values; the watchdog load is written in sine modulation, and the
PWM interrupt is enabled at the end of the critical section, whatever it was
before.  No synchronous update is requested. -/
theorem C19_set_duty_cycle_frame (e : Env) (a b c : Nat) (s : State) :
    (PWMSetDutyCycle e a b c s).ctrl =
      { s.ctrl with g_ulPWMDutyCycleA := a, g_ulPWMDutyCycleB := b,
                    g_ulPWMDutyCycleC := c, flagNewDutyCycle := true } ∧
    (PWMSetDutyCycle e a b c s).hw =
      { s.hw with
        wdtLoad := if e.UI_PARAM_MODULATION = e.MODULATION_SINE
                   then e.WATCHDOG_RELOAD_VALUE else s.hw.wdtLoad,
        intPWM0 := true } ∧
    (PWMSetDutyCycle e a b c s).ev =
      { s.ev with
        wdtReloads := s.ev.wdtReloads
          + (if e.UI_PARAM_MODULATION = e.MODULATION_SINE then 1 else 0) } ∧
    ((PWMSetDutyCycle e a b c s).hw.period0 = s.hw.period0 ∧
     (PWMSetDutyCycle e a b c s).hw.period1 = s.hw.period1 ∧
     (PWMSetDutyCycle e a b c s).hw.period2 = s.hw.period2) ∧
    ((PWMSetDutyCycle e a b c s).hw.width0 = s.hw.width0 ∧
     (PWMSetDutyCycle e a b c s).hw.width1 = s.hw.width1 ∧
     (PWMSetDutyCycle e a b c s).hw.width2 = s.hw.width2 ∧
     (PWMSetDutyCycle e a b c s).hw.width3 = s.hw.width3 ∧
     (PWMSetDutyCycle e a b c s).hw.width4 = s.hw.width4 ∧
     (PWMSetDutyCycle e a b c s).hw.width5 = s.hw.width5) ∧
    (PWMSetDutyCycle e a b c s).hw.outEnable = s.hw.outEnable ∧
    ((PWMSetDutyCycle e a b c s).hw.deadBand0 = s.hw.deadBand0 ∧
     (PWMSetDutyCycle e a b c s).hw.deadBand1 = s.hw.deadBand1 ∧
     (PWMSetDutyCycle e a b c s).hw.deadBand2 = s.hw.deadBand2) ∧
    ((PWMSetDutyCycle e a b c s).ctrl.flagNewFrequency = s.ctrl.flagNewFrequency ∧
     (PWMSetDutyCycle e a b c s).ctrl.flagNewPrecharge = s.ctrl.flagNewPrecharge) ∧
    (PWMSetDutyCycle e a b c s).ctrl.g_ulPWMPeriodCount = s.ctrl.g_ulPWMPeriodCount ∧
    (PWMSetDutyCycle e a b c s).ctrl.g_ulPWMMillisecondCount
      = s.ctrl.g_ulPWMMillisecondCount ∧
    ((PWMSetDutyCycle e a b c s).ctrl.g_ulTrapDutyCycle = s.ctrl.g_ulTrapDutyCycle ∧
     (PWMSetDutyCycle e a b c s).ctrl.g_ulPWMWidth = s.ctrl.g_ulPWMWidth) := by
  by_cases h : e.UI_PARAM_MODULATION = e.MODULATION_SINE
  · simp [PWMSetDutyCycle, WatchdogReloadSet, IntSetPWM0, h]
  · simp [PWMSetDutyCycle, WatchdogReloadSet, IntSetPWM0, h]

/-- Claim C19 as stated fails on the interrupt mask: called while the PWM
interrupt is disabled, `PWMSetDutyCycle` returns with it enabled, a change
besides the duty cycles, the flag and the watchdog reload (here the modulation
is not sine, so there is no watchdog reload either). -/
theorem C19_set_duty_cycle_enables_interrupt :
    (IntSetPWM0 false state1000).hw.intPWM0 = false ∧
    (PWMSetDutyCycle trapezoidEnv 1 2 3 (IntSetPWM0 false state1000)).hw.intPWM0 = true ∧
    (PWMSetDutyCycle trapezoidEnv 1 2 3 (IntSetPWM0 false state1000)).hw
      ≠ (IntSetPWM0 false state1000).hw := by
  decide

/-! ## The widths of all six outputs -/

/-- Claim C20, as the code has it: for a period `P` and a minimum pulse `m`
with `m < P / 2`, and all stored duty cycles, `PWMUpdateDutyCycle` leaves
outputs 0, 2 and 4 with a width in `[m, P - m]`.  Outputs 1, 3 and 5 get a
width in `[m, P - m]` as well, except when the modulation is not sine and the
decay mode is slow: then they get the period minus the dead time. -/
theorem C20_written_widths (e : Env) (s : State)
    (hP : s.ctrl.g_ulPWMClock < 4294967296)
    (hm : s.ctrl.g_ulMinPulseWidth < s.ctrl.g_ulPWMClock / 2) :
    ((s.ctrl.g_ulMinPulseWidth ≤ (PWMUpdateDutyCycle e s).hw.width0 ∧
      (PWMUpdateDutyCycle e s).hw.width0 ≤ s.ctrl.g_ulPWMClock - s.ctrl.g_ulMinPulseWidth) ∧
     (s.ctrl.g_ulMinPulseWidth ≤ (PWMUpdateDutyCycle e s).hw.width2 ∧
      (PWMUpdateDutyCycle e s).hw.width2 ≤ s.ctrl.g_ulPWMClock - s.ctrl.g_ulMinPulseWidth) ∧
     (s.ctrl.g_ulMinPulseWidth ≤ (PWMUpdateDutyCycle e s).hw.width4 ∧
      (PWMUpdateDutyCycle e s).hw.width4
        ≤ s.ctrl.g_ulPWMClock - s.ctrl.g_ulMinPulseWidth)) ∧
    (¬ (e.UI_PARAM_MODULATION ≠ e.MODULATION_SINE ∧ s.ctrl.g_ucDecayMode = e.DECAY_SLOW) →
     (s.ctrl.g_ulMinPulseWidth ≤ (PWMUpdateDutyCycle e s).hw.width1 ∧
      (PWMUpdateDutyCycle e s).hw.width1 ≤ s.ctrl.g_ulPWMClock - s.ctrl.g_ulMinPulseWidth) ∧
     (s.ctrl.g_ulMinPulseWidth ≤ (PWMUpdateDutyCycle e s).hw.width3 ∧
      (PWMUpdateDutyCycle e s).hw.width3 ≤ s.ctrl.g_ulPWMClock - s.ctrl.g_ulMinPulseWidth) ∧
     (s.ctrl.g_ulMinPulseWidth ≤ (PWMUpdateDutyCycle e s).hw.width5 ∧
      (PWMUpdateDutyCycle e s).hw.width5
        ≤ s.ctrl.g_ulPWMClock - s.ctrl.g_ulMinPulseWidth)) ∧
    ((e.UI_PARAM_MODULATION ≠ e.MODULATION_SINE ∧ s.ctrl.g_ucDecayMode = e.DECAY_SLOW) →
     (PWMUpdateDutyCycle e s).hw.width1 = sub32 s.ctrl.g_ulPWMClock e.UI_PARAM_PWM_DEAD_TIME ∧
     (PWMUpdateDutyCycle e s).hw.width3 = sub32 s.ctrl.g_ulPWMClock e.UI_PARAM_PWM_DEAD_TIME ∧
     (PWMUpdateDutyCycle e s).hw.width5
       = sub32 s.ctrl.g_ulPWMClock e.UI_PARAM_PWM_DEAD_TIME) := by
  obtain ⟨_, hhw⟩ := PWMUpdateDutyCycle_fields e s
  have hb := fun f => dutyToWidth_bounds f s.ctrl.g_ulPWMClock s.ctrl.g_ulMinPulseWidth hP
    (by omega)
  rw [hhw]
  refine ⟨⟨hb _, hb _, hb _⟩, ?_, ?_⟩
  · intro hmode
    simp only [if_neg hmode]
    exact ⟨hb _, hb _, hb _⟩
  · intro hmode
    exact ⟨if_pos hmode, if_pos hmode, if_pos hmode⟩

/-- Claim C20, as the code has it, in sine modulation at period 1000 and
minimum pulse 50: the widths of outputs 0 and 1 lie between 50 and 950. -/
theorem C20_written_widths_witness :
    (50 ≤ (PWMUpdateDutyCycle boardEnv state1000).hw.width0 ∧
     (PWMUpdateDutyCycle boardEnv state1000).hw.width0 ≤ 1000 - 50) ∧
    (50 ≤ (PWMUpdateDutyCycle boardEnv state1000).hw.width1 ∧
     (PWMUpdateDutyCycle boardEnv state1000).hw.width1 ≤ 1000 - 50) :=
  ⟨(C20_written_widths boardEnv state1000 (by decide) (by decide)).1.1,
   ((C20_written_widths boardEnv state1000 (by decide) (by decide)).2.1 (by decide)).1⟩

/-- Claim C20 as stated fails: with a modulation other than sine and the slow
decay mode, at period 1000, dead time 3 and minimum pulse 50 (`50 < 1000 / 2`),
`PWMUpdateDutyCycle` leaves outputs 1, 3 and 5 with the width 997, above
`1000 - 50`. -/
theorem C20_slow_decay_width_outside :
    trapezoidEnv.UI_PARAM_MODULATION ≠ trapezoidEnv.MODULATION_SINE ∧
    stateSlowDecay.ctrl.g_ucDecayMode = trapezoidEnv.DECAY_SLOW ∧
    stateSlowDecay.ctrl.g_ulMinPulseWidth < stateSlowDecay.ctrl.g_ulPWMClock / 2 ∧
    (PWMUpdateDutyCycle trapezoidEnv stateSlowDecay).hw.width1 = 997 ∧
    (PWMUpdateDutyCycle trapezoidEnv stateSlowDecay).hw.width3 = 997 ∧
    (PWMUpdateDutyCycle trapezoidEnv stateSlowDecay).hw.width5 = 997 ∧
    ¬ ((PWMUpdateDutyCycle trapezoidEnv stateSlowDecay).hw.width1
        ≤ stateSlowDecay.ctrl.g_ulPWMClock - stateSlowDecay.ctrl.g_ulMinPulseWidth) := by
  decide

/-! ## Monotonicity and the aggregate duty cycle -/

/-- Claim C30: for a period `P < 65536`, a minimum pulse `m` with
`2 * m ≤ P` and duty fractions `f1 ≤ f2 < 65536`, the width that the
conversion of `PWMUpdateDutyCycle` computes for `f1` is at most the width it
computes for `f2`. -/
theorem C30_width_monotone (f1 f2 P m : Nat)
    (hP : P < 65536) (hm : 2 * m ≤ P) (h12 : f1 ≤ f2) (hf2 : f2 < 65536) :
    dutyToWidth f1 P m ≤ dutyToWidth f2 P m := by
  have h2 : f2 * P < 4294967296 := Nat.mul_lt_mul'' hf2 hP
  have h1 : f1 * P < 4294967296 := Nat.lt_of_le_of_lt (Nat.mul_le_mul_right P h12) h2
  rw [dutyToWidth_eq_clamp f1 P m (by omega) hm h1,
    dutyToWidth_eq_clamp f2 P m (by omega) hm h2]
  have hraw : f1 * P / 65536 ≤ f2 * P / 65536 :=
    Nat.div_le_div_right (Nat.mul_le_mul_right P h12)
  omega

/-- Claim C30 at period 1000 and minimum pulse 50, for the fractions 16384
and 32768. -/
theorem C30_width_monotone_witness :
    dutyToWidth 16384 1000 50 ≤ dutyToWidth 32768 1000 50 :=
  C30_width_monotone 16384 32768 1000 50 (by decide) (by decide) (by decide) (by decide)

/-- Claim C21: after `PWMUpdateDutyCycle` with a period `P > 0`, `2 * m ≤ P`
and `P * 10000 < 2 ^ 32`, the published duty cycle `g_ulTrapDutyCycle` is
`((wA + wB + wC) / 3) * 10000 / P` for the three phase widths written, and is
at most 10000; `g_ulPWMWidth` is `(wA + wB + wC) / 3`. -/
theorem C21_aggregate_duty_cycle (e : Env) (s : State)
    (hP0 : 0 < s.ctrl.g_ulPWMClock)
    (hm : 2 * s.ctrl.g_ulMinPulseWidth ≤ s.ctrl.g_ulPWMClock)
    (hP : s.ctrl.g_ulPWMClock * 10000 < 4294967296) :
    (PWMUpdateDutyCycle e s).ctrl.g_ulTrapDutyCycle =
      (phaseWidth (PWMUpdateDutyCycle e s) Phase.A
        + phaseWidth (PWMUpdateDutyCycle e s) Phase.B
        + phaseWidth (PWMUpdateDutyCycle e s) Phase.C) / 3 * 10000 / s.ctrl.g_ulPWMClock ∧
    (PWMUpdateDutyCycle e s).ctrl.g_ulTrapDutyCycle ≤ 10000 ∧
    (PWMUpdateDutyCycle e s).ctrl.g_ulPWMWidth =
      (phaseWidth (PWMUpdateDutyCycle e s) Phase.A
        + phaseWidth (PWMUpdateDutyCycle e s) Phase.B
        + phaseWidth (PWMUpdateDutyCycle e s) Phase.C) / 3 := by
  obtain ⟨hctrl, _⟩ := PWMUpdateDutyCycle_fields e s
  simp only [phaseWidth_PWMUpdateDutyCycle, dutyOf]
  rw [hctrl]
  have hA := dutyToWidth_bounds s.ctrl.g_ulPWMDutyCycleA s.ctrl.g_ulPWMClock
    s.ctrl.g_ulMinPulseWidth (by omega) hm
  have hB := dutyToWidth_bounds s.ctrl.g_ulPWMDutyCycleB s.ctrl.g_ulPWMClock
    s.ctrl.g_ulMinPulseWidth (by omega) hm
  have hC := dutyToWidth_bounds s.ctrl.g_ulPWMDutyCycleC s.ctrl.g_ulPWMClock
    s.ctrl.g_ulMinPulseWidth (by omega) hm
  generalize dutyToWidth s.ctrl.g_ulPWMDutyCycleA s.ctrl.g_ulPWMClock
    s.ctrl.g_ulMinPulseWidth = wA at hA ⊢
  generalize dutyToWidth s.ctrl.g_ulPWMDutyCycleB s.ctrl.g_ulPWMClock
    s.ctrl.g_ulMinPulseWidth = wB at hB ⊢
  generalize dutyToWidth s.ctrl.g_ulPWMDutyCycleC s.ctrl.g_ulPWMClock
    s.ctrl.g_ulMinPulseWidth = wC at hC ⊢
  have h1 : add32 wA wB = wA + wB := add32_of_lt (by omega)
  have h2 : add32 (wA + wB) wC = wA + wB + wC := add32_of_lt (by omega)
  have havg : (wA + wB + wC) / 3 ≤ s.ctrl.g_ulPWMClock := by omega
  have h3 : mul32 ((wA + wB + wC) / 3) 10000 = (wA + wB + wC) / 3 * 10000 :=
    mul32_of_lt (by omega)
  show mul32 (add32 (add32 wA wB) wC / 3) 10000 / s.ctrl.g_ulPWMClock
      = (wA + wB + wC) / 3 * 10000 / s.ctrl.g_ulPWMClock ∧
    mul32 (add32 (add32 wA wB) wC / 3) 10000 / s.ctrl.g_ulPWMClock ≤ 10000 ∧
    add32 (add32 wA wB) wC / 3 = (wA + wB + wC) / 3
  rw [h1, h2, h3]
  refine ⟨rfl, ?_, rfl⟩
  apply Nat.div_le_of_le_mul
  calc (wA + wB + wC) / 3 * 10000 ≤ s.ctrl.g_ulPWMClock * 10000 :=
        Nat.mul_le_mul_right 10000 havg

/-- Claim C21 at period 1000 and minimum pulse 50 with the duty fractions
32768, 0 and 65535: the widths are 500, 50 and 950 and the published duty
cycle is 5000. -/
theorem C21_aggregate_duty_cycle_witness :
    (PWMUpdateDutyCycle boardEnv state1000).ctrl.g_ulTrapDutyCycle = 5000 ∧
    (PWMUpdateDutyCycle boardEnv state1000).ctrl.g_ulTrapDutyCycle ≤ 10000 :=
  ⟨(C21_aggregate_duty_cycle boardEnv state1000 (by decide) (by decide) (by decide)).1.trans
      (by decide),
   (C21_aggregate_duty_cycle boardEnv state1000 (by decide) (by decide) (by decide)).2.1⟩

/-! ## The slow decay pattern -/

/-- Claim C26: when the modulation is not sine and the decay mode is slow,
`PWMUpdateDutyCycle` leaves outputs 1, 3 and 5 with the period minus the dead
time (unsigned subtraction, which is `P - D` when `D ≤ P`) and outputs 0, 2
and 4 with the clamped widths of phases A, B and C; in sine modulation or
with another decay mode both outputs of each pair carry the clamped width of
their phase. -/
theorem C26_slow_decay_pattern (e : Env) (s : State) :
    ((e.UI_PARAM_MODULATION ≠ e.MODULATION_SINE ∧ s.ctrl.g_ucDecayMode = e.DECAY_SLOW) →
      ((PWMUpdateDutyCycle e s).hw.width1
          = sub32 s.ctrl.g_ulPWMClock e.UI_PARAM_PWM_DEAD_TIME ∧
       (PWMUpdateDutyCycle e s).hw.width3
          = sub32 s.ctrl.g_ulPWMClock e.UI_PARAM_PWM_DEAD_TIME ∧
       (PWMUpdateDutyCycle e s).hw.width5
          = sub32 s.ctrl.g_ulPWMClock e.UI_PARAM_PWM_DEAD_TIME) ∧
      ((PWMUpdateDutyCycle e s).hw.width0
          = dutyToWidth s.ctrl.g_ulPWMDutyCycleA s.ctrl.g_ulPWMClock s.ctrl.g_ulMinPulseWidth ∧
       (PWMUpdateDutyCycle e s).hw.width2
          = dutyToWidth s.ctrl.g_ulPWMDutyCycleB s.ctrl.g_ulPWMClock s.ctrl.g_ulMinPulseWidth ∧
       (PWMUpdateDutyCycle e s).hw.width4
          = dutyToWidth s.ctrl.g_ulPWMDutyCycleC s.ctrl.g_ulPWMClock
              s.ctrl.g_ulMinPulseWidth)) ∧
    (¬ (e.UI_PARAM_MODULATION ≠ e.MODULATION_SINE ∧ s.ctrl.g_ucDecayMode = e.DECAY_SLOW) →
      ((PWMUpdateDutyCycle e s).hw.width0
          = dutyToWidth s.ctrl.g_ulPWMDutyCycleA s.ctrl.g_ulPWMClock s.ctrl.g_ulMinPulseWidth ∧
       (PWMUpdateDutyCycle e s).hw.width1
          = dutyToWidth s.ctrl.g_ulPWMDutyCycleA s.ctrl.g_ulPWMClock
              s.ctrl.g_ulMinPulseWidth) ∧
      ((PWMUpdateDutyCycle e s).hw.width2
          = dutyToWidth s.ctrl.g_ulPWMDutyCycleB s.ctrl.g_ulPWMClock s.ctrl.g_ulMinPulseWidth ∧
       (PWMUpdateDutyCycle e s).hw.width3
          = dutyToWidth s.ctrl.g_ulPWMDutyCycleB s.ctrl.g_ulPWMClock
              s.ctrl.g_ulMinPulseWidth) ∧
      ((PWMUpdateDutyCycle e s).hw.width4
          = dutyToWidth s.ctrl.g_ulPWMDutyCycleC s.ctrl.g_ulPWMClock s.ctrl.g_ulMinPulseWidth ∧
       (PWMUpdateDutyCycle e s).hw.width5
          = dutyToWidth s.ctrl.g_ulPWMDutyCycleC s.ctrl.g_ulPWMClock
              s.ctrl.g_ulMinPulseWidth)) ∧
    (e.UI_PARAM_PWM_DEAD_TIME ≤ s.ctrl.g_ulPWMClock → s.ctrl.g_ulPWMClock < 4294967296 →
      sub32 s.ctrl.g_ulPWMClock e.UI_PARAM_PWM_DEAD_TIME
        = s.ctrl.g_ulPWMClock - e.UI_PARAM_PWM_DEAD_TIME) := by
  obtain ⟨_, hhw⟩ := PWMUpdateDutyCycle_fields e s
  rw [hhw]
  refine ⟨fun hmode => ?_, fun hmode => ?_, fun hD hP => sub32_of_le hD hP⟩
  · exact ⟨⟨if_pos hmode, if_pos hmode, if_pos hmode⟩, ⟨rfl, rfl, rfl⟩⟩
  · exact ⟨⟨rfl, if_neg hmode⟩, ⟨rfl, if_neg hmode⟩, ⟨rfl, if_neg hmode⟩⟩

/-- Claim C26 at period 1000, dead time 3 and minimum pulse 50: with slow
decay and a modulation other than sine output 1 gets 997 and output 0 the
clamped width 500; in sine modulation outputs 0 and 1 both get 500. -/
theorem C26_slow_decay_pattern_witness :
    (PWMUpdateDutyCycle trapezoidEnv stateSlowDecay).hw.width1 = 1000 - 3 ∧
    (PWMUpdateDutyCycle trapezoidEnv stateSlowDecay).hw.width0 = 500 ∧
    (PWMUpdateDutyCycle boardEnv state1000).hw.width1 = 500 :=
  ⟨((C26_slow_decay_pattern trapezoidEnv stateSlowDecay).1 (by decide)).1.1.trans
      ((C26_slow_decay_pattern trapezoidEnv stateSlowDecay).2.2 (by decide) (by decide)),
   ((C26_slow_decay_pattern trapezoidEnv stateSlowDecay).1 (by decide)).2.1.trans
      (by decide),
   ((C26_slow_decay_pattern boardEnv state1000).2.1 (by decide)).1.2.trans (by decide)⟩

/-! ## What a firing writes -/

/-- A firing of the handler that does not commit changes at most the output
enables, the mask of the PWM interrupt, the precharge flag, the two counters
and the counts of interrupts raised and cleared. -/
theorem PWM0IntHandler_no_commit_frame (e : Env) (s : State)
    (h : ¬ (add32 s.ctrl.g_ulPWMPeriodCount 1 > e.UI_PARAM_PWM_UPDATE ∧
            s.ctrl.flagNewDutyCycle = true)) :
    ∃ oe ie fp cnt ms k j c, PWM0IntHandler e s =
      { s with hw := { s.hw with outEnable := oe, intPWM0 := ie },
               ctrl := { s.ctrl with flagNewPrecharge := fp, g_ulPWMPeriodCount := cnt,
                                     g_ulPWMMillisecondCount := ms },
               ev := { s.ev with swWaveform := k, swMillisecond := j, intClears := c } } := by
  have hu : isrUpdate e (isrAcknowledge s) = isrAcknowledge s := by
    unfold isrUpdate
    rw [if_neg]
    simpa [isrAcknowledge] using h
  obtain ⟨oe, b, ie, cnt, n, ms, k, ht⟩ := isrTail_frame e (isrAcknowledge s)
  unfold PWM0IntHandler
  rw [hu, ht]
  exact ⟨_, _, _, _, _, _, _, _, rfl⟩

/-- A firing of the handler that commits: the periods are written with
`g_ulPWMClock` when a new frequency is waiting and are left alone otherwise,
and both flags are clear afterwards. -/
theorem PWM0IntHandler_commit_periods (e : Env) (s : State)
    (hc : add32 s.ctrl.g_ulPWMPeriodCount 1 > e.UI_PARAM_PWM_UPDATE)
    (hd : s.ctrl.flagNewDutyCycle = true) :
    (PWM0IntHandler e s).hw.period0
      = (if s.ctrl.flagNewFrequency = true then s.ctrl.g_ulPWMClock else s.hw.period0) ∧
    (PWM0IntHandler e s).hw.period1
      = (if s.ctrl.flagNewFrequency = true then s.ctrl.g_ulPWMClock else s.hw.period1) ∧
    (PWM0IntHandler e s).hw.period2
      = (if s.ctrl.flagNewFrequency = true then s.ctrl.g_ulPWMClock else s.hw.period2) ∧
    (PWM0IntHandler e s).ctrl.flagNewFrequency = false ∧
    (PWM0IntHandler e s).ctrl.flagNewDutyCycle = false := by
  have hu : (isrUpdate e (isrAcknowledge s)).hw.period0
        = (if s.ctrl.flagNewFrequency = true then s.ctrl.g_ulPWMClock else s.hw.period0) ∧
      (isrUpdate e (isrAcknowledge s)).hw.period1
        = (if s.ctrl.flagNewFrequency = true then s.ctrl.g_ulPWMClock else s.hw.period1) ∧
      (isrUpdate e (isrAcknowledge s)).hw.period2
        = (if s.ctrl.flagNewFrequency = true then s.ctrl.g_ulPWMClock else s.hw.period2) ∧
      (isrUpdate e (isrAcknowledge s)).ctrl.flagNewFrequency = false ∧
      (isrUpdate e (isrAcknowledge s)).ctrl.flagNewDutyCycle = false := by
    unfold isrUpdate
    rw [if_pos (by simpa [isrAcknowledge] using And.intro hc hd)]
    by_cases hf : s.ctrl.flagNewFrequency = true
    · have hf' : (isrAcknowledge s).ctrl.flagNewFrequency = true := hf
      simp only [hf', if_true, hf]
      obtain ⟨w, td, w0, w1, w2, w3, w4, w5, hfr⟩ := PWMUpdateDutyCycle_frame e
        { PWMGenPeriodSetAll (isrAcknowledge s).ctrl.g_ulPWMClock (isrAcknowledge s) with
          ctrl := { (PWMGenPeriodSetAll (isrAcknowledge s).ctrl.g_ulPWMClock
                      (isrAcknowledge s)).ctrl with flagNewFrequency := false } }
      rw [hfr]
      refine ⟨?_, ?_, ?_, ?_, ?_⟩ <;> first | rfl | trivial
    · have hf' : ¬ (isrAcknowledge s).ctrl.flagNewFrequency = true := hf
      have hff : s.ctrl.flagNewFrequency = false := by simpa using hf
      simp only [if_neg hf', if_neg hf]
      obtain ⟨w, td, w0, w1, w2, w3, w4, w5, hfr⟩ :=
        PWMUpdateDutyCycle_frame e (isrAcknowledge s)
      rw [hfr]
      refine ⟨?_, ?_, ?_, ?_, ?_⟩ <;> first | rfl | exact hff | trivial
  obtain ⟨oe, b, ie, cnt, n, ms, k, ht⟩ := isrTail_frame e (isrUpdate e (isrAcknowledge s))
  unfold PWM0IntHandler
  rw [ht]
  exact hu

/-- Claim C22: a firing of the handler in which the incremented period count
does not exceed `UI_PARAM_PWM_UPDATE`, or in which no new duty cycle is
waiting, leaves the three periods and the six pulse widths as they were,
requests no synchronous update and keeps both the new-frequency and the
new-duty-cycle flag.  A firing in which the count exceeds the threshold and a
new duty cycle is waiting sets the three periods to `g_ulPWMClock` when a new
frequency was waiting, leaves them as they were when none was, and returns
with both flags clear. -/
theorem C22_firing_writes (e : Env) (s : State) :
    (¬ (add32 s.ctrl.g_ulPWMPeriodCount 1 > e.UI_PARAM_PWM_UPDATE ∧
        s.ctrl.flagNewDutyCycle = true) →
      ((PWM0IntHandler e s).hw.period0 = s.hw.period0 ∧
       (PWM0IntHandler e s).hw.period1 = s.hw.period1 ∧
       (PWM0IntHandler e s).hw.period2 = s.hw.period2) ∧
      ((PWM0IntHandler e s).hw.width0 = s.hw.width0 ∧
       (PWM0IntHandler e s).hw.width1 = s.hw.width1 ∧
       (PWM0IntHandler e s).hw.width2 = s.hw.width2 ∧
       (PWM0IntHandler e s).hw.width3 = s.hw.width3 ∧
       (PWM0IntHandler e s).hw.width4 = s.hw.width4 ∧
       (PWM0IntHandler e s).hw.width5 = s.hw.width5) ∧
      (PWM0IntHandler e s).ev.syncUpdates = s.ev.syncUpdates ∧
      (PWM0IntHandler e s).ctrl.flagNewFrequency = s.ctrl.flagNewFrequency ∧
      (PWM0IntHandler e s).ctrl.flagNewDutyCycle = s.ctrl.flagNewDutyCycle) ∧
    ((add32 s.ctrl.g_ulPWMPeriodCount 1 > e.UI_PARAM_PWM_UPDATE ∧
        s.ctrl.flagNewDutyCycle = true) →
      (s.ctrl.flagNewFrequency = true →
        (PWM0IntHandler e s).hw.period0 = s.ctrl.g_ulPWMClock ∧
        (PWM0IntHandler e s).hw.period1 = s.ctrl.g_ulPWMClock ∧
        (PWM0IntHandler e s).hw.period2 = s.ctrl.g_ulPWMClock) ∧
      (s.ctrl.flagNewFrequency = false →
        (PWM0IntHandler e s).hw.period0 = s.hw.period0 ∧
        (PWM0IntHandler e s).hw.period1 = s.hw.period1 ∧
        (PWM0IntHandler e s).hw.period2 = s.hw.period2) ∧
      (PWM0IntHandler e s).ctrl.flagNewFrequency = false ∧
      (PWM0IntHandler e s).ctrl.flagNewDutyCycle = false) := by
  constructor
  · intro h
    obtain ⟨oe, ie, fp, cnt, ms, k, j, c, hfr⟩ := PWM0IntHandler_no_commit_frame e s h
    rw [hfr]
    exact ⟨⟨rfl, rfl, rfl⟩, ⟨rfl, rfl, rfl, rfl, rfl, rfl⟩, rfl, rfl, rfl⟩
  · intro h
    obtain ⟨p0, p1, p2, ff, fd⟩ := PWM0IntHandler_commit_periods e s h.1 h.2
    refine ⟨fun hf => ?_, fun hf => ?_, ff, fd⟩
    · exact ⟨p0.trans (if_pos hf), p1.trans (if_pos hf), p2.trans (if_pos hf)⟩
    · have hnf : ¬ s.ctrl.flagNewFrequency = true := by
        rw [hf]
        exact Bool.false_ne_true
      exact ⟨p0.trans (if_neg hnf), p1.trans (if_neg hnf), p2.trans (if_neg hnf)⟩

/-- Claim C22 on a state with a new frequency and a new duty cycle waiting:
the first firing (count 1, not above the update count 1) writes nothing and
keeps both flags, the second sets the periods to the new `g_ulPWMClock` and
clears both flags. -/
theorem C22_firing_writes_witness :
    (PWM0IntHandler boardEnv
      (PWMSetDutyCycle boardEnv 1 2 3 (PWMSetFrequency env8k state1000))).hw.period0
        = 1000 ∧
    (PWM0IntHandler boardEnv
      (PWMSetDutyCycle boardEnv 1 2 3 (PWMSetFrequency env8k state1000))).ctrl.flagNewFrequency
        = true ∧
    (PWM0IntHandler boardEnv (PWM0IntHandler boardEnv
      (PWMSetDutyCycle boardEnv 1 2 3 (PWMSetFrequency env8k state1000)))).hw.period0
        = 6250 ∧
    (PWM0IntHandler boardEnv (PWM0IntHandler boardEnv
      (PWMSetDutyCycle boardEnv 1 2 3
        (PWMSetFrequency env8k state1000)))).ctrl.flagNewFrequency = false :=
  ⟨((C22_firing_writes boardEnv
      (PWMSetDutyCycle boardEnv 1 2 3 (PWMSetFrequency env8k state1000))).1
      (by decide)).1.1.trans (by decide),
   ((C22_firing_writes boardEnv
      (PWMSetDutyCycle boardEnv 1 2 3 (PWMSetFrequency env8k state1000))).1
      (by decide)).2.2.2.1.trans (by decide),
   (((C22_firing_writes boardEnv (PWM0IntHandler boardEnv
      (PWMSetDutyCycle boardEnv 1 2 3 (PWMSetFrequency env8k state1000)))).2
      (by decide)).1 (by decide)).1.trans (by decide),
   ((C22_firing_writes boardEnv (PWM0IntHandler boardEnv
      (PWMSetDutyCycle boardEnv 1 2 3 (PWMSetFrequency env8k state1000)))).2
      (by decide)).2.2.1⟩

/-! ## The period count outside sine modulation -/

/-- One firing of the handler when the modulation is not sine: no waveform
interrupt is raised, and the incremented period count is reduced by its
largest multiple of `UI_PARAM_PWM_UPDATE + 1` once it has reached that
value. -/
theorem PWM0IntHandler_trapezoid (e : Env) (s : State)
    (hmod : e.UI_PARAM_MODULATION ≠ e.MODULATION_SINE)
    (hU : e.UI_PARAM_PWM_UPDATE + 1 < 4294967296)
    (hc : s.ctrl.g_ulPWMPeriodCount + 1 < 4294967296) :
    (PWM0IntHandler e s).ctrl.g_ulPWMPeriodCount =
      (if s.ctrl.g_ulPWMPeriodCount + 1 ≤ e.UI_PARAM_PWM_UPDATE then
         s.ctrl.g_ulPWMPeriodCount + 1
       else (s.ctrl.g_ulPWMPeriodCount + 1) % (e.UI_PARAM_PWM_UPDATE + 1)) ∧
    (PWM0IntHandler e s).ev.swWaveform = s.ev.swWaveform := by
  obtain ⟨u1, u2⟩ := isrUpdate_counts e (isrAcknowledge s)
  obtain ⟨oe, b, hp⟩ := isrPrecharge_frame (isrUpdate e (isrAcknowledge s))
  obtain ⟨ms, k, hm⟩ :=
    isrMillisecond_frame (isrWaveform e (isrPrecharge (isrUpdate e (isrAcknowledge s))))
  have hcnt : (isrPrecharge (isrUpdate e (isrAcknowledge s))).ctrl.g_ulPWMPeriodCount
      = s.ctrl.g_ulPWMPeriodCount + 1 := by
    rw [hp]
    exact u1.trans (add32_of_lt hc)
  have hsw : (isrPrecharge (isrUpdate e (isrAcknowledge s))).ev.swWaveform
      = s.ev.swWaveform := by
    rw [hp]; exact u2
  unfold PWM0IntHandler
  rw [hm]
  simp only
  unfold isrWaveform
  rw [hcnt, if_neg hmod, add32_of_lt hU]
  by_cases hle : s.ctrl.g_ulPWMPeriodCount + 1 ≤ e.UI_PARAM_PWM_UPDATE
  · rw [if_neg (by omega), if_pos hle]
    exact ⟨hcnt, hsw⟩
  · rw [if_pos (by omega), if_neg hle]
    have hmul : (s.ctrl.g_ulPWMPeriodCount + 1) / (e.UI_PARAM_PWM_UPDATE + 1)
        * (e.UI_PARAM_PWM_UPDATE + 1) ≤ s.ctrl.g_ulPWMPeriodCount + 1 :=
      Nat.div_mul_le_self _ _
    have hmod' : (s.ctrl.g_ulPWMPeriodCount + 1) % (e.UI_PARAM_PWM_UPDATE + 1)
        = s.ctrl.g_ulPWMPeriodCount + 1
          - (s.ctrl.g_ulPWMPeriodCount + 1) / (e.UI_PARAM_PWM_UPDATE + 1)
            * (e.UI_PARAM_PWM_UPDATE + 1) := by
      rw [Nat.mod_def, Nat.mul_comm]
    simp only [PWMReducePeriodCount, IntSetPWM0, PWMGetPeriodCount, hcnt]
    rw [mul32_of_lt (by omega), sub32_of_le hmul hc, hmod']
    exact ⟨rfl, hsw⟩

/-- Claim C24: when the modulation is not sine, a firing of the handler
raises no waveform interrupt, and from a period count `c` with
`c + 1 < 2 ^ 32` it leaves the period count at `c + 1` when `c + 1 ≤ U` and
at `(c + 1) % (U + 1)` otherwise (`U = UI_PARAM_PWM_UPDATE`, with `U + 1`
representable); in both cases the period count is at most `U` afterwards. -/
theorem C24_trapezoid_period_count (e : Env) (s : State)
    (hmod : e.UI_PARAM_MODULATION ≠ e.MODULATION_SINE)
    (hU : e.UI_PARAM_PWM_UPDATE + 1 < 4294967296)
    (hc : s.ctrl.g_ulPWMPeriodCount + 1 < 4294967296) :
    (PWM0IntHandler e s).ev.swWaveform = s.ev.swWaveform ∧
    (s.ctrl.g_ulPWMPeriodCount + 1 ≤ e.UI_PARAM_PWM_UPDATE →
      (PWM0IntHandler e s).ctrl.g_ulPWMPeriodCount = s.ctrl.g_ulPWMPeriodCount + 1) ∧
    (e.UI_PARAM_PWM_UPDATE < s.ctrl.g_ulPWMPeriodCount + 1 →
      (PWM0IntHandler e s).ctrl.g_ulPWMPeriodCount
        = (s.ctrl.g_ulPWMPeriodCount + 1) % (e.UI_PARAM_PWM_UPDATE + 1)) ∧
    (PWM0IntHandler e s).ctrl.g_ulPWMPeriodCount ≤ e.UI_PARAM_PWM_UPDATE := by
  obtain ⟨h1, h2⟩ := PWM0IntHandler_trapezoid e s hmod hU hc
  have hlt : (s.ctrl.g_ulPWMPeriodCount + 1) % (e.UI_PARAM_PWM_UPDATE + 1)
      < e.UI_PARAM_PWM_UPDATE + 1 := Nat.mod_lt _ (Nat.succ_pos _)
  refine ⟨h2, fun hle => ?_, fun hgt => ?_, ?_⟩
  · rw [h1, if_pos hle]
  · rw [h1, if_neg (by omega)]
  · rw [h1]
    split_ifs <;> omega

/-- Claim C24 with an update count of 1: from the period count 2 a firing
leaves `3 % 2 = 1`, and no waveform interrupt is raised. -/
theorem C24_trapezoid_period_count_witness :
    (PWM0IntHandler trapezoidEnv (fireISR boardEnv 2 state1000)).ev.swWaveform
      = (fireISR boardEnv 2 state1000).ev.swWaveform ∧
    (PWM0IntHandler trapezoidEnv (fireISR boardEnv 2 state1000)).ctrl.g_ulPWMPeriodCount
      = (2 + 1) % (1 + 1) ∧
    (PWM0IntHandler trapezoidEnv (fireISR boardEnv 2 state1000)).ctrl.g_ulPWMPeriodCount
      ≤ 1 :=
  ⟨(C24_trapezoid_period_count trapezoidEnv (fireISR boardEnv 2 state1000)
      (by decide) (by decide) (by decide)).1,
   (C24_trapezoid_period_count trapezoidEnv (fireISR boardEnv 2 state1000)
      (by decide) (by decide) (by decide)).2.2.1 (by decide),
   (C24_trapezoid_period_count trapezoidEnv (fireISR boardEnv 2 state1000)
      (by decide) (by decide) (by decide)).2.2.2⟩

/-! ## The waveform interrupt answered by the waveform layer -/

/-- One firing in sine modulation followed by the answer of the waveform
layer, from a period count `c ≤ U`: below `U` the count is incremented and no
interrupt is raised, at `U` the interrupt is raised and the count returns to
zero. -/
theorem fireAnswered_step (e : Env) (s : State)
    (hsine : e.UI_PARAM_MODULATION = e.MODULATION_SINE)
    (hU : e.UI_PARAM_PWM_UPDATE + 1 < 4294967296)
    (hc : s.ctrl.g_ulPWMPeriodCount ≤ e.UI_PARAM_PWM_UPDATE) :
    (fireAnswered e 1 s).ctrl.g_ulPWMPeriodCount =
      (if s.ctrl.g_ulPWMPeriodCount < e.UI_PARAM_PWM_UPDATE then
         s.ctrl.g_ulPWMPeriodCount + 1 else 0) ∧
    (fireAnswered e 1 s).ev.swWaveform = s.ev.swWaveform +
      (if s.ctrl.g_ulPWMPeriodCount < e.UI_PARAM_PWM_UPDATE then 0 else 1) := by
  obtain ⟨h1, h2⟩ := PWM0IntHandler_sine e s hsine
  rw [add32_of_lt (by omega)] at h1 h2
  rw [add32_of_lt hU] at h2
  simp only [fireAnswered]
  by_cases hlt : s.ctrl.g_ulPWMPeriodCount < e.UI_PARAM_PWM_UPDATE
  · rw [if_neg (by omega), Nat.add_zero] at h2
    rw [if_neg (by rw [h2]; exact fun h => h rfl), if_pos hlt, if_pos hlt]
    exact ⟨h1, h2⟩
  · rw [if_pos (by omega)] at h2
    rw [if_pos (by rw [h2]; omega), if_neg hlt, if_neg hlt]
    have hcu : s.ctrl.g_ulPWMPeriodCount + 1 = e.UI_PARAM_PWM_UPDATE + 1 := by omega
    constructor
    · show sub32 (PWM0IntHandler e s).ctrl.g_ulPWMPeriodCount (e.UI_PARAM_PWM_UPDATE + 1) = 0
      rw [h1, hcu, sub32_of_le (Nat.le_refl _) hU, Nat.sub_self]
    · exact h2

/-- Answered firings compose: one more round after `n` rounds. -/
theorem fireAnswered_succ (e : Env) (n : Nat) (s : State) :
    fireAnswered e (n + 1) s = fireAnswered e n (fireAnswered e 1 s) := rfl

/-- In sine modulation with every waveform interrupt answered, from a period
count `c ≤ U`, after `n` firings the period count is `(c + n) % (U + 1)` and
the waveform interrupt has been raised `(c + n) / (U + 1)` times. -/
theorem fireAnswered_counts (e : Env) (hsine : e.UI_PARAM_MODULATION = e.MODULATION_SINE)
    (hU : e.UI_PARAM_PWM_UPDATE + 1 < 4294967296) (n : Nat) (s : State)
    (hc : s.ctrl.g_ulPWMPeriodCount ≤ e.UI_PARAM_PWM_UPDATE) :
    (fireAnswered e n s).ctrl.g_ulPWMPeriodCount
      = (s.ctrl.g_ulPWMPeriodCount + n) % (e.UI_PARAM_PWM_UPDATE + 1) ∧
    (fireAnswered e n s).ev.swWaveform
      = s.ev.swWaveform + (s.ctrl.g_ulPWMPeriodCount + n) / (e.UI_PARAM_PWM_UPDATE + 1) := by
  induction n generalizing s with
  | zero =>
    simp only [fireAnswered, Nat.add_zero]
    rw [Nat.mod_eq_of_lt (by omega), Nat.div_eq_of_lt (by omega), Nat.add_zero]
    exact ⟨rfl, rfl⟩
  | succ n ih =>
    obtain ⟨h1, h2⟩ := fireAnswered_step e s hsine hU hc
    rw [fireAnswered_succ]
    by_cases hlt : s.ctrl.g_ulPWMPeriodCount < e.UI_PARAM_PWM_UPDATE
    · rw [if_pos hlt] at h1 h2
      obtain ⟨i1, i2⟩ := ih (fireAnswered e 1 s) (by rw [h1]; omega)
      rw [i1, i2, h1, h2]
      have hsum : s.ctrl.g_ulPWMPeriodCount + (n + 1) = s.ctrl.g_ulPWMPeriodCount + 1 + n := by
        omega
      rw [hsum, Nat.add_zero]
      exact ⟨rfl, rfl⟩
    · rw [if_neg hlt] at h1 h2
      obtain ⟨i1, i2⟩ := ih (fireAnswered e 1 s) (by rw [h1]; omega)
      rw [i1, i2, h1, h2]
      have hsum : s.ctrl.g_ulPWMPeriodCount + (n + 1)
          = (0 + n) + (e.UI_PARAM_PWM_UPDATE + 1) := by omega
      have hpos : 0 < e.UI_PARAM_PWM_UPDATE + 1 := by omega
      rw [hsum, Nat.add_mod_right, Nat.add_div_right _ hpos]
      exact ⟨rfl, by omega⟩

/-- Claim C25: in sine modulation, from a period count of 0, when every
raised waveform interrupt is answered by
`PWMReducePeriodCount (UI_PARAM_PWM_UPDATE + 1)` before the next firing, then
after `N` firings the waveform interrupt has been raised `N / (U + 1)` times
and the period count is `N % (U + 1)` (`U = UI_PARAM_PWM_UPDATE`, with
`U + 1` representable). -/
theorem C25_answered_waveform_interrupts (e : Env) (s : State) (N : Nat)
    (hsine : e.UI_PARAM_MODULATION = e.MODULATION_SINE)
    (h0 : s.ctrl.g_ulPWMPeriodCount = 0)
    (hU : e.UI_PARAM_PWM_UPDATE + 1 < 4294967296) :
    (fireAnswered e N s).ev.swWaveform
      = s.ev.swWaveform + N / (e.UI_PARAM_PWM_UPDATE + 1) ∧
    (fireAnswered e N s).ctrl.g_ulPWMPeriodCount = N % (e.UI_PARAM_PWM_UPDATE + 1) := by
  obtain ⟨h1, h2⟩ := fireAnswered_counts e hsine hU N s (by omega)
  rw [h0, Nat.zero_add] at h1 h2
  exact ⟨h2, h1⟩

/-- Claim C25 with an update count of 1: after 5 answered firings the
waveform interrupt has been raised twice and the period count is 1. -/
theorem C25_answered_waveform_interrupts_witness :
    (fireAnswered boardEnv 5 state1000).ev.swWaveform = 2 ∧
    (fireAnswered boardEnv 5 state1000).ctrl.g_ulPWMPeriodCount = 1 :=
  ⟨(C25_answered_waveform_interrupts boardEnv state1000 5 rfl rfl (by decide)).1.trans
      (by decide),
   (C25_answered_waveform_interrupts boardEnv state1000 5 rfl rfl (by decide)).2.trans
      (by decide)⟩

/-! ## The spacing of commits -/

/-- When the modulation is not sine and the period count is at most `U`, a
firing commits only if the period count is `U`, and leaves a period count of
at most `U`, which is zero after a commit. -/
theorem PWM0IntHandler_trapezoid_commit (e : Env) (s : State)
    (hmod : e.UI_PARAM_MODULATION ≠ e.MODULATION_SINE)
    (hU : e.UI_PARAM_PWM_UPDATE + 1 < 4294967296)
    (hc : s.ctrl.g_ulPWMPeriodCount ≤ e.UI_PARAM_PWM_UPDATE) :
    (PWM0IntHandler e s).ctrl.g_ulPWMPeriodCount ≤ e.UI_PARAM_PWM_UPDATE ∧
    (s.ctrl.g_ulPWMPeriodCount < e.UI_PARAM_PWM_UPDATE →
      (PWM0IntHandler e s).ctrl.g_ulPWMPeriodCount = s.ctrl.g_ulPWMPeriodCount + 1 ∧
      (PWM0IntHandler e s).ev.syncUpdates = s.ev.syncUpdates) ∧
    (s.ctrl.g_ulPWMPeriodCount = e.UI_PARAM_PWM_UPDATE →
      (PWM0IntHandler e s).ctrl.g_ulPWMPeriodCount = 0) := by
  obtain ⟨h1, _⟩ := PWM0IntHandler_trapezoid e s hmod hU (by omega)
  refine ⟨?_, fun hlt => ?_, fun heq => ?_⟩
  · have hlt : (s.ctrl.g_ulPWMPeriodCount + 1) % (e.UI_PARAM_PWM_UPDATE + 1)
        < e.UI_PARAM_PWM_UPDATE + 1 := Nat.mod_lt _ (Nat.succ_pos _)
    rw [h1]
    split_ifs <;> omega
  · obtain ⟨n1, _⟩ := PWM0IntHandler_no_commit e s (fun h => by
      have hgt := h.1
      rw [add32_of_lt (by omega)] at hgt
      omega)
    rw [h1, if_pos (by omega)]
    exact ⟨rfl, n1⟩
  · rw [h1, if_neg (by omega), heq, Nat.mod_self]

/-- When the modulation is not sine, in every interleaving that starts with a
period count `c ≤ U`, a firing that commits has at least `U - c` firings
before it, and two firings that commit are at least `U + 1` firings apart. -/
theorem commitLog_trapezoid (e : Env)
    (hmod : e.UI_PARAM_MODULATION ≠ e.MODULATION_SINE)
    (hU : e.UI_PARAM_PWM_UPDATE + 1 < 4294967296) (ops : List Op) :
    ∀ s : State, s.ctrl.g_ulPWMPeriodCount ≤ e.UI_PARAM_PWM_UPDATE →
      (∀ i, (commitLog e ops s)[i]? = some true →
        e.UI_PARAM_PWM_UPDATE ≤ i + s.ctrl.g_ulPWMPeriodCount) ∧
      (∀ i j, i < j → (commitLog e ops s)[i]? = some true →
        (commitLog e ops s)[j]? = some true → e.UI_PARAM_PWM_UPDATE + 1 ≤ j - i) := by
  induction ops with
  | nil =>
    intro s _
    constructor
    · intro i hi
      simp [commitLog] at hi
    · intro i j _ hi _
      simp [commitLog] at hi
  | cons op rest ih =>
    intro s hc
    cases op with
    | setDuty a b c =>
      obtain ⟨hctrl, _⟩ := PWMSetDutyCycle_ctrl e a b c s
      have hcnt : (PWMSetDutyCycle e a b c s).ctrl.g_ulPWMPeriodCount
          = s.ctrl.g_ulPWMPeriodCount := by rw [hctrl]
      obtain ⟨i1, i2⟩ := ih (PWMSetDutyCycle e a b c s) (by rw [hcnt]; exact hc)
      rw [hcnt] at i1
      exact ⟨i1, i2⟩
    | fire =>
      obtain ⟨t1, t2, t3⟩ := PWM0IntHandler_trapezoid_commit e s hmod hU hc
      obtain ⟨i1, i2⟩ := ih (PWM0IntHandler e s) t1
      have hlog : commitLog e (Op.fire :: rest) s
          = decide ((PWM0IntHandler e s).ev.syncUpdates ≠ s.ev.syncUpdates)
            :: commitLog e rest (PWM0IntHandler e s) := rfl
      rw [hlog]
      by_cases hlt : s.ctrl.g_ulPWMPeriodCount < e.UI_PARAM_PWM_UPDATE
      · obtain ⟨hcnt, hsync⟩ := t2 hlt
        rw [hcnt] at i1
        have hb : decide ((PWM0IntHandler e s).ev.syncUpdates ≠ s.ev.syncUpdates) = false := by
          rw [hsync]
          simp
        rw [hb]
        constructor
        · intro i hi
          cases i with
          | zero => simp at hi
          | succ i =>
            rw [List.getElem?_cons_succ] at hi
            have := i1 i hi
            omega
        · intro i j hij hi hj
          cases i with
          | zero => simp at hi
          | succ i =>
            cases j with
            | zero => omega
            | succ j =>
              rw [List.getElem?_cons_succ] at hi hj
              have := i2 i j (by omega) hi hj
              omega
      · have heq : s.ctrl.g_ulPWMPeriodCount = e.UI_PARAM_PWM_UPDATE := by omega
        have hcnt := t3 heq
        rw [hcnt] at i1
        constructor
        · intro i _
          omega
        · intro i j hij hi hj
          cases j with
          | zero => omega
          | succ j =>
            rw [List.getElem?_cons_succ] at hj
            cases i with
            | zero =>
              have := i1 j hj
              omega
            | succ i =>
              rw [List.getElem?_cons_succ] at hi
              have := i2 i j (by omega) hi hj
              omega

/-- Claim C23, as the code has it: when the modulation is not sine and the
period count is at most `U = UI_PARAM_PWM_UPDATE` at the start (as it is
after every firing in that modulation), then in every interleaving of
`PWMSetDutyCycle` calls and firings, however many calls there are, two
firings that each commit are at least `U + 1` firings apart. -/
theorem C23_trapezoid_commit_spacing (e : Env) (ops : List Op) (s : State) (i j : Nat)
    (hmod : e.UI_PARAM_MODULATION ≠ e.MODULATION_SINE)
    (hU : e.UI_PARAM_PWM_UPDATE + 1 < 4294967296)
    (hc : s.ctrl.g_ulPWMPeriodCount ≤ e.UI_PARAM_PWM_UPDATE)
    (hij : i < j)
    (hi : (commitLog e ops s)[i]? = some true)
    (hj : (commitLog e ops s)[j]? = some true) :
    e.UI_PARAM_PWM_UPDATE + 1 ≤ j - i :=
  (commitLog_trapezoid e hmod hU ops s hc).2 i j hij hi hj

/-- Claim C23, as the code has it, with an update count of 1 and a call
before each of four firings: the second and the fourth firing commit, two
firings apart. -/
theorem C23_trapezoid_commit_spacing_witness :
    commitLog trapezoidEnv
      [Op.setDuty 1 2 3, Op.fire, Op.setDuty 4 5 6, Op.fire,
       Op.setDuty 7 8 9, Op.fire, Op.setDuty 1 1 1, Op.fire] state1000
      = [false, true, false, true] ∧
    trapezoidEnv.UI_PARAM_PWM_UPDATE + 1 ≤ 3 - 1 :=
  ⟨by decide,
   C23_trapezoid_commit_spacing trapezoidEnv
     [Op.setDuty 1 2 3, Op.fire, Op.setDuty 4 5 6, Op.fire,
      Op.setDuty 7 8 9, Op.fire, Op.setDuty 1 1 1, Op.fire] state1000 1 3
     (by decide) (by decide) (by decide) (by decide) (by decide) (by decide)⟩

/-- Claim C23 as stated fails.  In sine modulation with an update count of 1
the handler does not reduce the period count: with a call before the second
and before the third firing, both of these firings commit, one firing apart.
With a modulation other than sine the same happens from a period count of 2,
above the update count: the first and the second firing both commit. -/
theorem C23_commits_on_successive_firings :
    boardEnv.UI_PARAM_MODULATION = boardEnv.MODULATION_SINE ∧
    boardEnv.UI_PARAM_PWM_UPDATE = 1 ∧
    commitLog boardEnv
      [Op.fire, Op.setDuty 1 2 3, Op.fire, Op.setDuty 4 5 6, Op.fire] state1000
      = [false, true, true] ∧
    trapezoidEnv.UI_PARAM_MODULATION ≠ trapezoidEnv.MODULATION_SINE ∧
    trapezoidEnv.UI_PARAM_PWM_UPDATE = 1 ∧
    (fireISR boardEnv 2 state1000).ctrl.g_ulPWMPeriodCount = 2 ∧
    commitLog trapezoidEnv
      [Op.setDuty 1 2 3, Op.fire, Op.setDuty 4 5 6, Op.fire] (fireISR boardEnv 2 state1000)
      = [true, true] := by
  decide

/-! ## The Off mode and the fault latch under the handler -/

/-- With no precharge waiting, `PWMOutputOff` followed by any number of
firings of the handler leaves the six outputs disabled. -/
theorem PWMOutputOff_stable_without_precharge (e e' : Env) (s : State) (n i : Nat)
    (hp : s.ctrl.flagNewPrecharge = false) (hi : i < 6) :
    outputEnabled (fireISR e' n (PWMOutputOff e s)) i = false := by
  obtain ⟨hctrl, hhw⟩ := PWMUpdateDutyCycle_fields e
    { s with
      ctrl := { s.ctrl with
        g_ulPWMDutyCycleA := 32768, g_ulPWMDutyCycleB := 32768, g_ulPWMDutyCycleC := 32768,
        g_ulMinPulseWidth := (PWMSetMinPulseWidth e s).ctrl.g_ulMinPulseWidth },
      hw := { s.hw with
        outEnable := s.hw.outEnable &&& (4294967295 ^^^ PWM_OUT_ALL),
        period0 := e.PWM_CLOCK / 1000, period1 := e.PWM_CLOCK / 1000,
        period2 := e.PWM_CLOCK / 1000,
        deadBand0 := none, deadBand1 := none, deadBand2 := none } }
  rw [← PWMOutputOff_eq e s] at hctrl hhw
  have hflag : (PWMOutputOff e s).ctrl.flagNewPrecharge = false := by
    rw [hctrl]
    exact hp
  obtain ⟨g1, _⟩ := fireISR_outEnable e' n (PWMOutputOff e s) hflag
  simp only [outputEnabled, g1, hhw]
  exact testBit_clear_outputs _ i hi

/-- Claim C27 fails on the code: `PWMOutputOff` does not cancel a precharge
that is waiting.  After `PWMOutputPrecharge` and then `PWMOutputOff`, with no
firing in between, the six outputs are disabled and the precharge flag is
still set, and the next firing of the handler enables outputs 1, 3 and 5. -/
theorem C27_off_keeps_pending_precharge :
    (PWMOutputOff boardEnv (PWMOutputPrecharge boardEnv state1000)).hw.outEnable = 0 ∧
    (PWMOutputOff boardEnv (PWMOutputPrecharge boardEnv state1000)).ctrl.flagNewPrecharge
      = true ∧
    (fireISR boardEnv 1
      (PWMOutputOff boardEnv (PWMOutputPrecharge boardEnv state1000))).hw.outEnable = 42 ∧
    outputEnabled (fireISR boardEnv 1
      (PWMOutputOff boardEnv (PWMOutputPrecharge boardEnv state1000))) 1 = true ∧
    outputEnabled (fireISR boardEnv 1
      (PWMOutputOff boardEnv (PWMOutputPrecharge boardEnv state1000))) 3 = true ∧
    outputEnabled (fireISR boardEnv 1
      (PWMOutputOff boardEnv (PWMOutputPrecharge boardEnv state1000))) 5 = true := by
  decide

/-- Claim C28 fails on the code: the precharge block of the handler does not
query the fault latch.  With a precharge waiting from a call made before the
fault and all six outputs disabled, a firing of the handler while the fault
latch is set enables outputs 1, 3 and 5. -/
theorem C28_handler_enables_under_fault :
    faultedEnv.mainIsFaulted = true ∧
    (PWMOutputPrecharge boardEnv state1000).ctrl.flagNewPrecharge = true ∧
    (PWMOutputPrecharge boardEnv state1000).hw.outEnable = 0 ∧
    (PWM0IntHandler faultedEnv (PWMOutputPrecharge boardEnv state1000)).hw.outEnable = 42 ∧
    (PWM0IntHandler faultedEnv (PWMOutputPrecharge boardEnv state1000)).hw.outEnable
      ≠ (PWMOutputPrecharge boardEnv state1000).hw.outEnable := by
  decide

/-! ## The pulse widths in the Off mode -/

/-- Claim C29, as the code has it by design: after `PWMOutputOff` the three
stored duty cycles are 32768, the three periods are `PWM_CLOCK / 1000`, and
outputs 0, 2 and 4 carry one common width.  Outputs 1, 3 and 5 carry that
width as well, except when the modulation is not sine and the decay mode is
slow: then they carry `g_ulPWMClock` minus the dead time. -/
theorem C29_off_widths (e : Env) (s : State) :
    ((PWMOutputOff e s).ctrl.g_ulPWMDutyCycleA = 32768 ∧
     (PWMOutputOff e s).ctrl.g_ulPWMDutyCycleB = 32768 ∧
     (PWMOutputOff e s).ctrl.g_ulPWMDutyCycleC = 32768) ∧
    ((PWMOutputOff e s).hw.period0 = e.PWM_CLOCK / 1000 ∧
     (PWMOutputOff e s).hw.period1 = e.PWM_CLOCK / 1000 ∧
     (PWMOutputOff e s).hw.period2 = e.PWM_CLOCK / 1000) ∧
    ((PWMOutputOff e s).hw.width2 = (PWMOutputOff e s).hw.width0 ∧
     (PWMOutputOff e s).hw.width4 = (PWMOutputOff e s).hw.width0) ∧
    (¬ (e.UI_PARAM_MODULATION ≠ e.MODULATION_SINE ∧ s.ctrl.g_ucDecayMode = e.DECAY_SLOW) →
      (PWMOutputOff e s).hw.width1 = (PWMOutputOff e s).hw.width0 ∧
      (PWMOutputOff e s).hw.width3 = (PWMOutputOff e s).hw.width0 ∧
      (PWMOutputOff e s).hw.width5 = (PWMOutputOff e s).hw.width0) ∧
    ((e.UI_PARAM_MODULATION ≠ e.MODULATION_SINE ∧ s.ctrl.g_ucDecayMode = e.DECAY_SLOW) →
      (PWMOutputOff e s).hw.width1 = sub32 s.ctrl.g_ulPWMClock e.UI_PARAM_PWM_DEAD_TIME ∧
      (PWMOutputOff e s).hw.width3 = sub32 s.ctrl.g_ulPWMClock e.UI_PARAM_PWM_DEAD_TIME ∧
      (PWMOutputOff e s).hw.width5 = sub32 s.ctrl.g_ulPWMClock e.UI_PARAM_PWM_DEAD_TIME) := by
  obtain ⟨hctrl, hhw⟩ := PWMUpdateDutyCycle_fields e
    { s with
      ctrl := { s.ctrl with
        g_ulPWMDutyCycleA := 32768, g_ulPWMDutyCycleB := 32768, g_ulPWMDutyCycleC := 32768,
        g_ulMinPulseWidth := (PWMSetMinPulseWidth e s).ctrl.g_ulMinPulseWidth },
      hw := { s.hw with
        outEnable := s.hw.outEnable &&& (4294967295 ^^^ PWM_OUT_ALL),
        period0 := e.PWM_CLOCK / 1000, period1 := e.PWM_CLOCK / 1000,
        period2 := e.PWM_CLOCK / 1000,
        deadBand0 := none, deadBand1 := none, deadBand2 := none } }
  rw [← PWMOutputOff_eq e s] at hctrl hhw
  rw [hctrl, hhw]
  refine ⟨⟨rfl, rfl, rfl⟩, ⟨rfl, rfl, rfl⟩, ⟨rfl, rfl⟩, fun hmode => ?_, fun hmode => ?_⟩
  · exact ⟨if_neg hmode, if_neg hmode, if_neg hmode⟩
  · exact ⟨if_pos hmode, if_pos hmode, if_pos hmode⟩

/-- Claim C29 as stated fails.  With `PWM_CLOCK = 50000000` the idle period
that `PWMOutputOff` writes is 50000 and the recomputed minimum pulse width is
129, below 25000; with `g_ulPWMClock = 1000` the width written to output 0 is
500, not 25000.  With a modulation other than sine and slow decay, output 1
is moreover left with `1000 - 3 = 997`. -/
theorem C29_off_width_not_half_idle :
    (PWMOutputOff boardEnv state1000).hw.period0 = 50000 ∧
    (PWMOutputOff boardEnv state1000).ctrl.g_ulMinPulseWidth = 129 ∧
    (PWMOutputOff boardEnv state1000).ctrl.g_ulMinPulseWidth ≤ 50000 / 2 ∧
    (PWMOutputOff boardEnv state1000).hw.width0 = 500 ∧
    (PWMOutputOff boardEnv state1000).hw.width0 ≠ 50000 / 2 ∧
    (PWMOutputOff trapezoidEnv stateSlowDecay).hw.period0 = 50000 ∧
    (PWMOutputOff trapezoidEnv stateSlowDecay).hw.width0 = 500 ∧
    (PWMOutputOff trapezoidEnv stateSlowDecay).hw.width1 = 997 := by
  decide

end PwmCtrl
